import Mathlib

set_option synthInstance.maxSize 4000
set_option maxHeartbeats 1000000

/-!
Shallow embedding of `arviz_plots.plots.distplot.plot_dist`
(src/arviz_plots/plots/distplot.py) together with models of the helpers it
calls from other modules of the same package (which are not part of the
sources given here) and of the external libraries it delegates to.

The embedding mirrors the source line by line:

* keyword-argument dictionaries become association lists (`dlookup`,
  `dsetdefault`, `dset` mirror `d.get`, `d.setdefault`, `d[k] = v`,
  preserving Python's insertion-order semantics);
* Python dict *objects* carry an identity (`DictObj`), and every in-place
  mutation the source performs (`setdefault`, item assignment) is recorded
  in a mutation log by the id of the dict it targets; dicts freshly
  allocated inside `plot_dist` (by `{}`, `.copy()` or `copy(...)`) get ids
  1000-1007, one per allocation site, so the log makes observable whether a
  caller-supplied dict is ever mutated;
* calls into the external statistics layer (`azstats.kde/ecdf/eti/hdi`,
  `median`, `mean`) and the xarray expressions built from their results are
  represented symbolically by `DataExpr`, so that the exact arguments
  forwarded to the statistics library are visible in the result;
* every dispatch through `PlotCollection.map` (and the one
  `update_aes_from_dataset` call) becomes an `Event` in an ordered trace;
* `raise` becomes an `Err` outcome carrying the trace accumulated so far.
-/

namespace ArvizPlots

/-- Keyword-argument dictionary contents: ordered key/value pairs. -/
abbrev KW := List (String × String)

/-- `d.get(k)` on a Python dict embedded as an insertion-ordered
association list. -/
def dlookup {α : Type} : List (String × α) → String → Option α
  | [], _ => none
  | (k2, v) :: rest, k => if k2 = k then some v else dlookup rest k

/-- `d.setdefault(k, v)`: insert at the end when the key is absent,
keep the dict unchanged when it is present. -/
def dsetdefault {α : Type} (d : List (String × α)) (k : String) (v : α) :
    List (String × α) :=
  if (dlookup d k).isSome then d else d ++ [(k, v)]

/-- `d[k] = v`: overwrite in place when the key is present, append
otherwise. -/
def dset {α : Type} : List (String × α) → String → α → List (String × α)
  | [], k, v => [(k, v)]
  | (k2, v2) :: rest, k, v =>
      if k2 = k then (k, v) :: rest else (k2, v2) :: dset rest k v

theorem dlookup_append_single {α : Type} (d : List (String × α)) (k k2 : String) (v : α) :
    dlookup (d ++ [(k, v)]) k2 =
      match dlookup d k2 with
      | some w => some w
      | none => if k = k2 then some v else none := by
  induction d with
  | nil => simp [dlookup]
  | cons p rest ih =>
    cases p with
    | mk ka va =>
      by_cases hk : ka = k2
      · simp [dlookup, hk]
      · simp [dlookup, hk, ih]

theorem dlookup_dsetdefault_self {α : Type} (d : List (String × α)) (k : String) (v : α) :
    dlookup (dsetdefault d k v) k = some ((dlookup d k).getD v) := by
  unfold dsetdefault
  cases h : dlookup d k with
  | some w => simp [h]
  | none => simp [h, dlookup_append_single]

theorem dlookup_dsetdefault_ne {α : Type} (d : List (String × α)) (k k2 : String) (v : α)
    (h : k2 ≠ k) : dlookup (dsetdefault d k v) k2 = dlookup d k2 := by
  unfold dsetdefault
  by_cases hs : (dlookup d k).isSome
  · simp [hs]
  · simp only [hs, Bool.false_eq_true, if_false]
    rw [dlookup_append_single]
    cases hd : dlookup d k2 with
    | some w => simp
    | none => simp [Ne.symm h]

theorem dlookup_dset_self {α : Type} (d : List (String × α)) (k : String) (v : α) :
    dlookup (dset d k v) k = some v := by
  induction d with
  | nil => simp [dset, dlookup]
  | cons p rest ih =>
    cases p with
    | mk k2 v2 =>
      by_cases hk : k2 = k
      · simp [dset, hk, dlookup]
      · simp [dset, hk, dlookup, ih]

theorem dlookup_dset_ne {α : Type} (d : List (String × α)) (k k2 : String) (v : α)
    (h : k2 ≠ k) : dlookup (dset d k v) k2 = dlookup d k2 := by
  induction d with
  | nil => simp [dset, dlookup, Ne.symm h]
  | cons p rest ih =>
    cases p with
    | mk ka va =>
      by_cases hk : ka = k
      · subst hk
        simp [dset, dlookup, Ne.symm h]
      · by_cases hk2 : ka = k2
        · subst hk2
          simp [dset, h, hk, dlookup]
        · simp [dset, hk, dlookup, hk2, ih]

/-- A Python dict object: a value together with an object identity, so that
in-place mutation can be told apart from rebinding a fresh copy. -/
structure DictObj (α : Type) where
  id : Nat
  val : α

instance {α : Type} [DecidableEq α] : DecidableEq (DictObj α) :=
  fun a b =>
    match a, b with
    | ⟨i1, v1⟩, ⟨i2, v2⟩ =>
      if h1 : i1 = i2 then
        if h2 : v1 = v2 then
          .isTrue (by subst h1; subst h2; rfl)
        else .isFalse (by intro hh; cases hh; exact h2 rfl)
      else .isFalse (by intro hh; cases hh; exact h1 rfl)

/-- A value of the `plot_kwargs` mapping: either `False` (disable the
artist) or a keyword dict (`mapping or False` in the docstring). -/
inductive PKEntry where
  | off
  | kw (d : DictObj KW)
deriving DecidableEq

/-- The processed distribution: its dimension names in order
(`distribution.dims`) and whether the Python membership test
`"model" in distribution` holds (the "model" coordinate created for
dictionary input). -/
structure Distribution where
  dims : List String
  hasModel : Bool
deriving DecidableEq

/-- Input data (`dt` argument); opaque except for the distribution that
processing it yields. -/
structure DataTree where
  processed : Distribution
deriving DecidableEq

/-- Modelled from the spec (`arviz_plots.plots.utils.process_group_variables_coords`
is not among the given sources): a pure subsetting step that turns the input
data into the processed distribution, without modifying the input. -/
def process_group_variables_coords (dt : DataTree) (_group : String)
    (_var_names _filter_vars _coords : Option String) : Distribution :=
  dt.processed

/-- The state of a `PlotCollection` as far as `plot_dist` observes it:
its aesthetic mappings (aesthetic name to the list of dimensions mapped to
it), its `coords` attribute, and the backend it draws with. -/
structure PlotCollection where
  aes : List (String × List String)
  coords : Option Unit := none
  backend : String := ""
deriving DecidableEq

/-- `plot_collection.aes_set`: the aesthetics that have a mapping. -/
def PlotCollection.aes_set (pc : PlotCollection) : List String :=
  pc.aes.map (fun p => p.1)

/-- The keyword arguments `plot_dist` prepares for `PlotCollection.wrap`:
the keys it touches (`col_wrap`, `cols`, `aes`) plus any other
caller-supplied entries. -/
structure PCKwargsVal where
  col_wrap : Option Nat := none
  cols : Option (List String) := none
  aes : Option (DictObj (List (String × List String))) := none
  extra : KW := []
deriving DecidableEq

/-- Modelled from the spec (`PlotCollection.wrap` is not among the given
sources): creates a fresh collection over the distribution, drawing with
the given backend, with the aesthetic mappings taken from
`pc_kwargs["aes"]` and no `coords` subset. -/
def PlotCollection.wrap (_dist : Distribution) (backend : String)
    (pk : PCKwargsVal) : PlotCollection :=
  { aes := (pk.aes.map (fun o => o.val)).getD [], coords := none,
    backend := backend }

/-- Result triple of `filter_aes`. -/
structure FilterResult where
  dims : List String
  aes : List String
  ignore : List String
deriving DecidableEq

/-- Modelled from the spec (`arviz_plots.plots.utils.filter_aes` is not
among the given sources): for one artist it returns the dimensions to
reduce (the sample dimensions not mapped to one of the artist's
aesthetics), the aesthetics that apply to the artist (its `aes_map` entry),
and the aesthetics of the collection the artist should ignore (all the
others). -/
def filter_aes (pc : PlotCollection) (aesMap : List (String × List String))
    (artist : String) (sampleDims : List String) : FilterResult :=
  let artistAes := (dlookup aesMap artist).getD []
  let mappedDims := (artistAes.map (fun a => (dlookup pc.aes a).getD [])).flatten
  { dims := sampleDims.filter (fun d => !(mappedDims.contains d)),
    aes := artistAes,
    ignore := pc.aes_set.filter (fun a => !(artistAes.contains a)) }

/-- Symbolic data handed to drawing calls: each constructor records one
call into the external statistics layer (with the exact arguments
forwarded) or one xarray expression built from such results. -/
inductive DataExpr where
  | kde (dims : List String) (kwargs : KW)
  | ecdf (dims : List String) (kwargs : KW)
  | eti (prob : ℚ) (dims : List String) (kwargs : KW)
  | hdi (prob : ℚ) (dims : List String) (kwargs : KW)
  | median (dims : List String) (kwargs : KW)
  | mean (dims : List String) (kwargs : KW)
  | onesLike (e : DataExpr)
  | textYKde (density : DataExpr)
  | textYEcdf (point : DataExpr)
  | concatXY (x y : DataExpr)
  | yOffset (kind : String) (density : DataExpr)
deriving DecidableEq

/-- Exceptions `plot_dist` can raise. -/
inductive Err where
  | valueError (msg : String)
  | notImplementedError (msg : String)
  | nameError (nm : String)
deriving DecidableEq

/-- One dispatch through `plot_collection.map`: the visual function, the
artist name, whether the artist is stored, the `data` argument, the
`ignore_aes` argument, the final keyword dict, and any extra positional
keywords (`point_estimate=...`, `subset_info=True`). -/
structure MapCall where
  visual : String
  artist : String
  store : Bool := true
  data : Option DataExpr := none
  ignoreAes : List String := []
  kwargs : KW := []
  extra : KW := []
deriving DecidableEq

/-- One externally observable action of `plot_dist`, in dispatch order. -/
inductive Event where
  | wrap (backend : String) (pk : PCKwargsVal)
  | map (m : MapCall)
  | updateAesY (d : DataExpr)
deriving DecidableEq

/-- Output of one section of the function body: the events it dispatched,
the ids of the dicts it mutated, and the exception it raised, if any. -/
structure SOut where
  events : List Event := []
  log : List Nat := []
  err : Option Err := none
deriving DecidableEq

/-- The values `plot_dist` resolved from its arguments and `rcParams`
before doing any work (ghost output used to state properties). -/
structure Resolved where
  sample_dims : List String
  kind : String
  point_estimate : String
  ci_kind : String
  ci_prob : ℚ
  aes_map : List (String × List String)
  pc : PlotCollection
deriving DecidableEq

/-- Return value or exception of the call. -/
inductive Outcome where
  | ok (pc : PlotCollection)
  | err (e : Err)
deriving DecidableEq

def Outcome.isOk : Outcome → Bool
  | .ok _ => true
  | .err _ => false

def Outcome.isValueError : Outcome → Bool
  | .err (.valueError _) => true
  | _ => false

/-- Full observable behaviour of one call. -/
structure RunResult where
  events : List Event := []
  mutLog : List Nat := []
  resolved : Option Resolved := none
  ret : Outcome
deriving DecidableEq

/-- `sample_dims` may be a single string or a sequence of them. -/
inductive StrOrStrs where
  | one (s : String)
  | many (l : List String)
deriving DecidableEq

/-- The `rcParams` configuration entries `plot_dist` reads
(`"stats.ci_kind" in rcParams` can be false, hence the `Option`). -/
structure RCParams where
  data_sample_dims : StrOrStrs
  stats_ci_prob : ℚ
  stats_ci_kind : Option String
  stats_point_estimate : String
  plot_density_kind : String
  plot_backend : String
deriving DecidableEq

/-- The arguments of `plot_dist`, with the source's defaults. -/
structure Args where
  dt : DataTree
  var_names : Option String := none
  filter_vars : Option String := none
  group : String := "posterior"
  coords : Option String := none
  sample_dims : Option StrOrStrs := none
  kind : Option String := none
  point_estimate : Option String := none
  ci_kind : Option String := none
  ci_prob : Option ℚ := none
  plot_collection : Option PlotCollection := none
  backend : Option String := none
  labeller : Option String := none
  aes_map : Option (DictObj (List (String × List String))) := none
  plot_kwargs : Option (DictObj (List (String × PKEntry))) := none
  stats_kwargs : Option (DictObj (List (String × DictObj KW))) := none
  pc_kwargs : Option (DictObj PCKwargsVal) := none
deriving DecidableEq

/-- The ids of every dict object the caller supplied (including dicts
nested inside `plot_kwargs`, `stats_kwargs` and `pc_kwargs["aes"]`). -/
def Args.callerIds (a : Args) : List Nat :=
  (match a.pc_kwargs with
   | none => []
   | some o => o.id :: (match o.val.aes with | none => [] | some i => [i.id])) ++
  (match a.aes_map with | none => [] | some o => [o.id]) ++
  (match a.plot_kwargs with
   | none => []
   | some o => o.id :: o.val.filterMap
       (fun p => match p.2 with | .off => none | .kw d => some d.id)) ++
  (match a.stats_kwargs with
   | none => []
   | some o => o.id :: o.val.map (fun p => p.2.id))

/-- The local state shared by the sections of the function body after all
defaults are resolved and the collection and `aes_map` are in place. -/
structure Ctx where
  distribution : Distribution
  sample_dims : List String
  kind : String
  point_estimate : String
  ci_kind : String
  ci_prob : ℚ
  plot_kwargs : List (String × PKEntry)
  stats_kwargs : List (String × DictObj KW)
  pc : PlotCollection
  aesMap : List (String × List String)
deriving DecidableEq

/-- `stats_kwargs.get(key, {})`. -/
def Ctx.statsGet (c : Ctx) (k : String) : KW :=
  match dlookup c.stats_kwargs k with
  | some o => o.val
  | none => []

/-- `copy(plot_kwargs.get(key, {}))`: `none` when the entry is `False`,
otherwise the contents of a fresh copy of the entry (or of a fresh empty
dict when the key is absent). -/
def Ctx.pkGet (c : Ctx) (k : String) : Option KW :=
  match dlookup c.plot_kwargs k with
  | some .off => none
  | some (.kw d) => some d.val
  | none => some []

/-- Output of the density section: also carries the `density` local
variable (defined only when the density artist was drawn). -/
structure DensityOut where
  events : List Event := []
  log : List Nat := []
  err : Option Err := none
  density : Option DataExpr := none
deriving DecidableEq

/-- Lines 226-258 (`# density`): `density_kwargs = copy(plot_kwargs.get(kind, {}))`
(fresh dict id 1003); when not `False`, compute the density via
`distribution.azstats.kde/ecdf` and dispatch `line_xy`/`ecdf_line`, or
raise `NotImplementedError` for any other kind. -/
def densityStage (c : Ctx) : DensityOut :=
  match c.pkGet c.kind with
  | none => {}
  | some dkw =>
    if c.kind = "kde" then
      { events := [.map { visual := "line_xy", artist := "kde",
                          data := some (DataExpr.kde
                            (filter_aes c.pc c.aesMap c.kind c.sample_dims).dims
                            (c.statsGet "density")),
                          ignoreAes := (filter_aes c.pc c.aesMap c.kind c.sample_dims).ignore,
                          kwargs := dkw }],
        density := some (DataExpr.kde
          (filter_aes c.pc c.aesMap c.kind c.sample_dims).dims
          (c.statsGet "density")) }
    else if c.kind = "ecdf" then
      { events := [.map { visual := "ecdf_line", artist := "ecdf",
                          data := some (DataExpr.ecdf
                            (filter_aes c.pc c.aesMap c.kind c.sample_dims).dims
                            (c.statsGet "density")),
                          ignoreAes := (filter_aes c.pc c.aesMap c.kind c.sample_dims).ignore,
                          kwargs := dkw }],
        density := some (DataExpr.ecdf
          (filter_aes c.pc c.aesMap c.kind c.sample_dims).dims
          (c.statsGet "density")) }
    else
      { err := some (.notImplementedError "coming soon") }

/-- Lines 260-270: when a "model" dimension is present and the collection
has no `coords` subset, rescale the "y" aesthetic from the density maximum
(`density_kwargs is not None` is always true, the values of `plot_kwargs`
being dicts or `False`); referencing the local `density` when the density
artist was disabled raises `NameError`. -/
def yOffsetStage (c : Ctx) (density : Option DataExpr) : SOut :=
  if c.distribution.hasModel && c.pc.coords.isNone then
    match density with
    | none => { err := some (.nameError "density") }
    | some d => { events := [.updateAesY (.yOffset c.kind d)] }
  else {}

/-- Lines 278-285: the interval data, `none` when the resolved `ci_kind`
matches neither branch and the local `ci` stays unassigned. -/
def ciData (c : Ctx) : Option DataExpr :=
  if c.ci_kind = "eti" then
    some (.eti c.ci_prob
      (filter_aes c.pc c.aesMap "credible_interval" c.sample_dims).dims
      (c.statsGet "credible_interval"))
  else if c.ci_kind = "hdi" then
    some (.hdi c.ci_prob
      (filter_aes c.pc c.aesMap "credible_interval" c.sample_dims).dims
      (c.statsGet "credible_interval"))
  else none

/-- Lines 287-288: the conditional `color` default on the `ci_kwargs` copy. -/
def ciKwargs (c : Ctx) (ckw : KW) : KW :=
  if (filter_aes c.pc c.aesMap "credible_interval" c.sample_dims).aes.contains "color"
  then ckw else dsetdefault ckw "color" "gray"

/-- Mutation record of lines 287-288 (the copy has id 1004). -/
def ciColorLog (c : Ctx) : List Nat :=
  if (filter_aes c.pc c.aesMap "credible_interval" c.sample_dims).aes.contains "color"
  then [] else [1004]

/-- Lines 272-289 (`# credible interval`): `ci_kwargs` is a fresh copy
(id 1004); when not `False`, compute the interval via
`distribution.azstats.eti/hdi` and dispatch `line_x`. -/
def ciStage (c : Ctx) : SOut :=
  match c.pkGet "credible_interval" with
  | none => {}
  | some ckw =>
    match ciData c with
    | none => { log := ciColorLog c, err := some (.nameError "ci") }
    | some ci =>
      { events := [.map { visual := "line_x", artist := "credible_interval",
                          data := some ci,
                          ignoreAes := (filter_aes c.pc c.aesMap "credible_interval" c.sample_dims).ignore,
                          kwargs := ciKwargs c ckw }],
        log := ciColorLog c }

/-- Lines 298-303: the point estimate, `none` for an unimplemented one. -/
def pePoint (c : Ctx) : Option DataExpr :=
  if c.point_estimate = "median" then
    some (.median (filter_aes c.pc c.aesMap "point_estimate" c.sample_dims).dims
      (c.statsGet "point_estimate"))
  else if c.point_estimate = "mean" then
    some (.mean (filter_aes c.pc c.aesMap "point_estimate" c.sample_dims).dims
      (c.statsGet "point_estimate"))
  else none

/-- Lines 305-314: the `scatter_x` dispatch and the mutations of the
`pe_kwargs` copy (id 1005), when the artist is enabled. -/
def peScatter (c : Ctx) (point : DataExpr) : List Event × List Nat :=
  match c.pkGet "point_estimate" with
  | none => ([], [])
  | some pkw =>
    ([Event.map { visual := "scatter_x", artist := "point_estimate",
                  data := some point,
                  ignoreAes := (filter_aes c.pc c.aesMap "point_estimate" c.sample_dims).ignore,
                  kwargs :=
                    if (filter_aes c.pc c.aesMap "point_estimate" c.sample_dims).aes.contains "color"
                    then pkw else dsetdefault pkw "color" "gray" }],
     if (filter_aes c.pc c.aesMap "point_estimate" c.sample_dims).aes.contains "color"
     then [] else [1005])

/-- Lines 316-326: the y position of the text; `none` when none of the
branches assigns the local `point_y` (unreachable in practice, the density
section having raised already). -/
def peTextY (c : Ctx) (density : Option DataExpr) (point : DataExpr) :
    Option DataExpr :=
  match density with
  | none => some (.onesLike point)
  | some dd =>
    if c.kind = "kde" then some (.textYKde dd)
    else if c.kind = "ecdf" then some (.textYEcdf point)
    else none

/-- Lines 328-343: the final `pet_kwargs` after the conditional `color`
default and the `horizontal_align`/`point_label` defaults. -/
def petKwargs (c : Ctx) (ptkw : KW) : KW :=
  dsetdefault
    (dsetdefault
      (if (filter_aes c.pc c.aesMap "point_estimate_text" c.sample_dims).aes.contains "color"
       then ptkw else dsetdefault ptkw "color" "gray")
      "horizontal_align" "center")
    "point_label" "x"

/-- Mutations of the `pet_kwargs` copy (id 1006) in lines 332-335. -/
def petLog (c : Ctx) : List Nat :=
  (if (filter_aes c.pc c.aesMap "point_estimate_text" c.sample_dims).aes.contains "color"
   then [] else [1006]) ++ [1006, 1006]

/-- The `point_estimate_text` dispatch of lines 336-343. -/
def petEvent (c : Ctx) (point py : DataExpr) (ptkw : KW) : Event :=
  .map { visual := "point_estimate_text", artist := "point_estimate_text",
         data := some (.concatXY point py),
         ignoreAes := (filter_aes c.pc c.aesMap "point_estimate_text" c.sample_dims).ignore,
         kwargs := petKwargs c ptkw,
         extra := [("point_estimate", c.point_estimate)] }

def peStage (c : Ctx) (density : Option DataExpr) : SOut :=
  if (c.pkGet "point_estimate").isNone && (c.pkGet "point_estimate_text").isNone
  then {}
  else
    match pePoint c with
    | none => { err := some (.notImplementedError "coming soon") }
    | some point =>
      match c.pkGet "point_estimate_text" with
      | none =>
        { events := (peScatter c point).1, log := (peScatter c point).2 }
      | some ptkw =>
        match peTextY c density point with
        | none =>
          { events := (peScatter c point).1, log := (peScatter c point).2,
            err := some (.nameError "point_y") }
        | some py =>
          { events := (peScatter c point).1 ++ [petEvent c point py ptkw],
            log := (peScatter c point).2 ++ petLog c }

/-- Lines 345-358 (`# aesthetics`): `title_kwargs` is a fresh copy
(id 1007); when not `False`, dispatch `labelled_title`. -/
def titleStage (c : Ctx) : SOut :=
  match c.pkGet "title" with
  | none => {}
  | some tkw =>
    { events := [.map { visual := "labelled_title", artist := "title",
                        data := none,
                        ignoreAes := (filter_aes c.pc c.aesMap "title" c.sample_dims).ignore,
                        kwargs :=
                          if (filter_aes c.pc c.aesMap "title" c.sample_dims).aes.contains "color"
                          then tkw else dsetdefault tkw "color" "black",
                        extra := [("subset_info", "True")] }],
      log :=
        if (filter_aes c.pc c.aesMap "title" c.sample_dims).aes.contains "color"
        then [] else [1007] }

/-- Lines 359-362: for `kind == "kde"`, unless
`plot_kwargs.get("remove_axis", True) is False`, dispatch `remove_axis`
with `store_artist=False` ignoring every aesthetic. -/
def removeAxisStage (c : Ctx) : List Event :=
  if c.kind = "kde" ∧ dlookup c.plot_kwargs "remove_axis" ≠ some PKEntry.off then
    [.map { visual := "remove_axis", artist := "", store := false,
            data := none, ignoreAes := c.pc.aes_set,
            kwargs := [("axis", "y")] }]
  else []

/-- Output of lines 194-211: the collection that is used from here on,
the `PlotCollection.wrap` call if one was made, and the mutations applied
to the local `pc_kwargs` copy (id 1000) and its fresh `aes` entry
(id 1001). -/
structure PCOut where
  pc : PlotCollection
  events : List Event := []
  log : List Nat := []
deriving DecidableEq

/-- Lines 180-181: the contents of `plot_kwargs` (`{}` when `None`). -/
def plotKwargsVal (a : Args) : List (String × PKEntry) :=
  match a.plot_kwargs with
  | none => []
  | some o => o.val

/-- Lines 187-188: the contents of `stats_kwargs` (`{}` when `None`). -/
def statsKwargsVal (a : Args) : List (String × DictObj KW) :=
  match a.stats_kwargs with
  | none => []
  | some o => o.val

/-- Lines 213-216: the contents of the local copy of `aes_map`
(`{}` when `None`, fresh id 1002 either way). -/
def aesMapVal (a : Args) : List (String × List String) :=
  match a.aes_map with
  | none => []
  | some o => o.val

/-- Lines 182-185: the contents of the local copy of `pc_kwargs`
(`{}` when `None`, fresh id 1000 either way). -/
def pcKwargsVal (a : Args) : PCKwargsVal :=
  match a.pc_kwargs with
  | none => {}
  | some o => o.val

/-- Line 197: `pc_kwargs.setdefault("col_wrap", 5)` on the local copy. -/
def pcK1 (a : Args) : PCKwargsVal :=
  match (pcKwargsVal a).col_wrap with
  | none => { pcKwargsVal a with col_wrap := some 5 }
  | some _ => pcKwargsVal a

/-- Lines 198-202: the default facet columns. -/
def defaultCols (distribution : Distribution) (sample_dims : List String) :
    List String :=
  "__variable__" ::
    distribution.dims.filter (fun d => !(d = "model" || sample_dims.contains d))

/-- Lines 198-202: `pc_kwargs.setdefault("cols", ...)`. -/
def pcK2 (a : Args) (distribution : Distribution) (sample_dims : List String) :
    PCKwargsVal :=
  match (pcK1 a).cols with
  | none => { pcK1 a with cols := some (defaultCols distribution sample_dims) }
  | some _ => pcK1 a

/-- Lines 203-206: with a "model" coordinate, replace the `aes` entry by a
fresh copy (id 1001) with "color" and "y" defaulted to `["model"]`;
the second component records the mutations (item assignment on the
`pc_kwargs` copy, two `setdefault`s on the fresh `aes` dict). -/
def pcAesStep (a : Args) (distribution : Distribution)
    (sample_dims : List String) : PCKwargsVal × List Nat :=
  if distribution.hasModel then
    ({ pcK2 a distribution sample_dims with
        aes := some ⟨1001,
          dsetdefault
            (dsetdefault
              (((pcK2 a distribution sample_dims).aes.map (fun o => o.val)).getD [])
              "color" ["model"])
            "y" ["model"]⟩ },
     [1000, 1001, 1001])
  else (pcK2 a distribution sample_dims, [])

def pcStage (a : Args) (rc : RCParams) (distribution : Distribution)
    (sample_dims : List String) : PCOut :=
  match a.plot_collection with
  | some pc => { pc := pc }
  | none =>
    { pc := PlotCollection.wrap distribution (a.backend.getD rc.plot_backend)
        (pcAesStep a distribution sample_dims).1,
      events := [.wrap (a.backend.getD rc.plot_backend)
        (pcAesStep a distribution sample_dims).1],
      log := [1000, 1000] ++ (pcAesStep a distribution sample_dims).2 }

/-- Line 217: `aes_map.setdefault(kind, plot_collection.aes_set.difference("y"))`
on the local copy (id 1002). -/
def aesMStep1 (a : Args) (kind : String) (pc : PlotCollection) :
    List (String × List String) :=
  dsetdefault (aesMapVal a) kind (pc.aes_set.filter (fun s => !(s = "y")))

/-- Lines 218-220: with a "model" coordinate, default the
"credible_interval" and "point_estimate" entries to `["color", "y"]`. -/
def aesMStep2 (a : Args) (dist : Distribution) (kind : String)
    (pc : PlotCollection) : List (String × List String) :=
  if dist.hasModel then
    dsetdefault (dsetdefault (aesMStep1 a kind pc) "credible_interval"
      ["color", "y"]) "point_estimate" ["color", "y"]
  else aesMStep1 a kind pc

/-- Lines 221-222: copy the "point_estimate" entry to
"point_estimate_text" when only the former is present. -/
def aesMStep3 (a : Args) (dist : Distribution) (kind : String)
    (pc : PlotCollection) : List (String × List String) :=
  if (dlookup (aesMStep2 a dist kind pc) "point_estimate").isSome
      ∧ (dlookup (aesMStep2 a dist kind pc) "point_estimate_text").isNone then
    dset (aesMStep2 a dist kind pc) "point_estimate_text"
      ((dlookup (aesMStep2 a dist kind pc) "point_estimate").getD [])
  else aesMStep2 a dist kind pc

/-- Lines 213-222: copy the caller's `aes_map` (fresh id 1002), default the
density artist's aesthetics to every collection aesthetic except "y",
default "credible_interval" and "point_estimate" to `["color", "y"]` when a
"model" coordinate is present, and copy the "point_estimate" entry to
"point_estimate_text" when only the former is set. -/
def resolveAesMap (a : Args) (dist : Distribution) (kind : String)
    (pc : PlotCollection) : (List (String × List String)) × List Nat :=
  (aesMStep3 a dist kind pc,
   (if dist.hasModel then [1002, 1002, 1002] else [1002]) ++
     (if (dlookup (aesMStep2 a dist kind pc) "point_estimate").isSome
         ∧ (dlookup (aesMStep2 a dist kind pc) "point_estimate_text").isNone
      then [1002] else []))

/-- Lines 168-171: resolve `sample_dims` from the argument or `rcParams`,
wrapping a single string into a list. -/
def resolveSampleDims (a : Args) (rc : RCParams) : List String :=
  match a.sample_dims with
  | none =>
    match rc.data_sample_dims with
    | .one s => [s]
    | .many l => l
  | some (.one s) => [s]
  | some (.many l) => l

/-- Line 174-175: resolve `ci_kind`, falling back to `"eti"` when
`rcParams` has no `stats.ci_kind` entry. -/
def resolveCiKind (a : Args) (rc : RCParams) : String :=
  match a.ci_kind with
  | some s => s
  | none => rc.stats_ci_kind.getD "eti"

/-- Lines 178-179: resolve the density kind. -/
def resolveKind (a : Args) (rc : RCParams) : String :=
  a.kind.getD rc.plot_density_kind

/-- Lines 176-177: resolve the point estimate. -/
def resolvePointEstimate (a : Args) (rc : RCParams) : String :=
  a.point_estimate.getD rc.stats_point_estimate

/-- Line 190-192: the processed distribution. -/
def processedDist (a : Args) : Distribution :=
  process_group_variables_coords a.dt a.group a.var_names a.filter_vars a.coords

/-- Line 165: the accepted values of the `ci_kind` argument. -/
def ciKindOk (ck : Option String) : Prop :=
  ck = some "hdi" ∨ ck = some "eti" ∨ ck = none

instance (ck : Option String) : Decidable (ciKindOk ck) := by
  unfold ciKindOk
  infer_instance

/-- Lines 194-211 condensed: the collection used for all drawing. -/
def thePC (a : Args) (rc : RCParams) : PlotCollection :=
  (pcStage a rc (processedDist a) (resolveSampleDims a rc)).pc

/-- Lines 213-222 condensed: the resolved `aes_map`. -/
def theAesMap (a : Args) (rc : RCParams) : List (String × List String) :=
  (resolveAesMap a (processedDist a) (resolveKind a rc) (thePC a rc)).1

/-- The local state after lines 165-222. -/
def theCtx (a : Args) (rc : RCParams) : Ctx :=
  { distribution := processedDist a,
    sample_dims := resolveSampleDims a rc,
    kind := resolveKind a rc,
    point_estimate := resolvePointEstimate a rc,
    ci_kind := resolveCiKind a rc,
    ci_prob := a.ci_prob.getD rc.stats_ci_prob,
    plot_kwargs := plotKwargsVal a,
    stats_kwargs := statsKwargsVal a,
    pc := thePC a rc, aesMap := theAesMap a rc }

/-- The ghost record of resolved values. -/
def theResolved (a : Args) (rc : RCParams) : Resolved :=
  { sample_dims := resolveSampleDims a rc,
    kind := resolveKind a rc,
    point_estimate := resolvePointEstimate a rc,
    ci_kind := resolveCiKind a rc,
    ci_prob := a.ci_prob.getD rc.stats_ci_prob,
    aes_map := theAesMap a rc, pc := thePC a rc }

/-- Events dispatched by lines 194-211 (the `PlotCollection.wrap` call). -/
def baseEvents (a : Args) (rc : RCParams) : List Event :=
  (pcStage a rc (processedDist a) (resolveSampleDims a rc)).events

/-- Mutations applied by lines 182-222. -/
def baseLog (a : Args) (rc : RCParams) : List Nat :=
  (pcStage a rc (processedDist a) (resolveSampleDims a rc)).log ++
    (resolveAesMap a (processedDist a) (resolveKind a rc) (thePC a rc)).2

/-- The function body after the `ci_kind` validation of line 165 passed:
resolve defaults, process the data, set up the collection and `aes_map`,
then run the density, y-offset, credible-interval, point-estimate, title
and remove-axis sections in order, stopping at the first raise. -/
def mainRun (a : Args) (rc : RCParams) : RunResult :=
  match (densityStage (theCtx a rc)).err with
  | some e =>
    { events := baseEvents a rc ++ (densityStage (theCtx a rc)).events,
      mutLog := baseLog a rc ++ (densityStage (theCtx a rc)).log,
      resolved := some (theResolved a rc), ret := .err e }
  | none =>
    match (yOffsetStage (theCtx a rc) (densityStage (theCtx a rc)).density).err with
    | some e =>
      { events := baseEvents a rc ++ (densityStage (theCtx a rc)).events ++
          (yOffsetStage (theCtx a rc) (densityStage (theCtx a rc)).density).events,
        mutLog := baseLog a rc ++ (densityStage (theCtx a rc)).log ++
          (yOffsetStage (theCtx a rc) (densityStage (theCtx a rc)).density).log,
        resolved := some (theResolved a rc), ret := .err e }
    | none =>
      match (ciStage (theCtx a rc)).err with
      | some e =>
        { events := baseEvents a rc ++ (densityStage (theCtx a rc)).events ++
            (yOffsetStage (theCtx a rc) (densityStage (theCtx a rc)).density).events ++
            (ciStage (theCtx a rc)).events,
          mutLog := baseLog a rc ++ (densityStage (theCtx a rc)).log ++
            (yOffsetStage (theCtx a rc) (densityStage (theCtx a rc)).density).log ++
            (ciStage (theCtx a rc)).log,
          resolved := some (theResolved a rc), ret := .err e }
      | none =>
        match (peStage (theCtx a rc) (densityStage (theCtx a rc)).density).err with
        | some e =>
          { events := baseEvents a rc ++ (densityStage (theCtx a rc)).events ++
              (yOffsetStage (theCtx a rc) (densityStage (theCtx a rc)).density).events ++
              (ciStage (theCtx a rc)).events ++
              (peStage (theCtx a rc) (densityStage (theCtx a rc)).density).events,
            mutLog := baseLog a rc ++ (densityStage (theCtx a rc)).log ++
              (yOffsetStage (theCtx a rc) (densityStage (theCtx a rc)).density).log ++
              (ciStage (theCtx a rc)).log ++
              (peStage (theCtx a rc) (densityStage (theCtx a rc)).density).log,
            resolved := some (theResolved a rc), ret := .err e }
        | none =>
          { events := baseEvents a rc ++ (densityStage (theCtx a rc)).events ++
              (yOffsetStage (theCtx a rc) (densityStage (theCtx a rc)).density).events ++
              (ciStage (theCtx a rc)).events ++
              (peStage (theCtx a rc) (densityStage (theCtx a rc)).density).events ++
              (titleStage (theCtx a rc)).events ++ removeAxisStage (theCtx a rc),
            mutLog := baseLog a rc ++ (densityStage (theCtx a rc)).log ++
              (yOffsetStage (theCtx a rc) (densityStage (theCtx a rc)).density).log ++
              (ciStage (theCtx a rc)).log ++
              (peStage (theCtx a rc) (densityStage (theCtx a rc)).density).log ++
              (titleStage (theCtx a rc)).log,
            resolved := some (theResolved a rc), ret := .ok (thePC a rc) }

/-- The embedding of `plot_dist` (lines 23-364): validate `ci_kind`
(line 165-166) and otherwise run the body. The result records the ordered
trace of drawing dispatches, the ids of every dict mutated in place, the
resolved defaults, and the return value or exception. -/
def plot_dist (a : Args) (rc : RCParams) : RunResult :=
  if ciKindOk a.ci_kind then mainRun a rc
  else { ret := .err (.valueError "ci_kind must be either 'hdi' or 'eti'") }

/-- A representative `rcParams` configuration for concrete instantiations
(the probability is written in lowest terms so that kernel evaluation of
rational equality succeeds). -/
def exRC : RCParams :=
  { data_sample_dims := .many ["chain", "draw"],
    stats_ci_prob := Rat.mk' 83 100,
    stats_ci_kind := some "eti", stats_point_estimate := "mean",
    plot_density_kind := "kde", plot_backend := "matplotlib" }

/-- A representative single-model input. -/
def exDT : DataTree := ⟨⟨["chain", "draw", "school"], false⟩⟩

/-! ### Stage lemmas -/

theorem densityStage_err_shape (c : Ctx) (e : Err)
    (h : (densityStage c).err = some e) :
    e = .notImplementedError "coming soon" := by
  unfold densityStage at h
  repeat' split at h
  all_goals simp_all

theorem yOffsetStage_err_shape (c : Ctx) (density : Option DataExpr) (e : Err)
    (h : (yOffsetStage c density).err = some e) : e = .nameError "density" := by
  unfold yOffsetStage at h
  repeat' split at h
  all_goals simp_all

theorem ciStage_err_shape (c : Ctx) (e : Err)
    (h : (ciStage c).err = some e) : e = .nameError "ci" := by
  unfold ciStage at h
  repeat' split at h
  all_goals simp_all

theorem peStage_err_shape (c : Ctx) (density : Option DataExpr) (e : Err)
    (h : (peStage c density).err = some e) :
    e = .notImplementedError "coming soon" ∨ e = .nameError "point_y" := by
  unfold peStage at h
  repeat' split at h
  all_goals simp_all

theorem titleStage_err (c : Ctx) : (titleStage c).err = none := by
  unfold titleStage
  split
  · rfl
  · rfl

theorem densityStage_err_out (c : Ctx) (e : Err)
    (h : (densityStage c).err = some e) : densityStage c = { err := some e } := by
  unfold densityStage at h ⊢
  repeat' split
  all_goals repeat' split at h
  all_goals simp_all

theorem densityStage_log (c : Ctx) : (densityStage c).log = [] := by
  unfold densityStage
  repeat' split
  all_goals rfl

theorem densityStage_event_shape (c : Ctx) (e : Event)
    (h : e ∈ (densityStage c).events) :
    ∃ dkw, c.pkGet c.kind = some dkw ∧
      ((c.kind = "kde" ∧ e = .map { visual := "line_xy", artist := "kde",
                                    data := some (DataExpr.kde
                                      (filter_aes c.pc c.aesMap c.kind c.sample_dims).dims
                                      (c.statsGet "density")),
                                    ignoreAes := (filter_aes c.pc c.aesMap c.kind c.sample_dims).ignore,
                                    kwargs := dkw }) ∨
       (c.kind = "ecdf" ∧ e = .map { visual := "ecdf_line", artist := "ecdf",
                                     data := some (DataExpr.ecdf
                                       (filter_aes c.pc c.aesMap c.kind c.sample_dims).dims
                                       (c.statsGet "density")),
                                     ignoreAes := (filter_aes c.pc c.aesMap c.kind c.sample_dims).ignore,
                                     kwargs := dkw })) := by
  unfold densityStage at h
  split at h
  · simp at h
  · next dkw heq =>
    refine ⟨dkw, heq, ?_⟩
    split at h
    · next hk =>
      simp only [List.mem_singleton] at h
      exact Or.inl ⟨hk, h⟩
    · split at h
      · next hk =>
        simp only [List.mem_singleton] at h
        exact Or.inr ⟨hk, h⟩
      · simp at h

theorem densityStage_ok_cases (c : Ctx) (h : (densityStage c).err = none) :
    c.pkGet c.kind = none ∨ c.kind = "kde" ∨ c.kind = "ecdf" := by
  unfold densityStage at h
  split at h
  · next heq => exact Or.inl heq
  · split at h
    · next hk => exact Or.inr (Or.inl hk)
    · split at h
      · next hk => exact Or.inr (Or.inr hk)
      · simp at h

theorem densityStage_ok_density (c : Ctx)
    (hon : c.pkGet c.kind ≠ none) (hk : c.kind = "kde" ∨ c.kind = "ecdf") :
    (densityStage c).err = none ∧ (densityStage c).density ≠ none := by
  unfold densityStage
  split
  · next heq => exact absurd heq hon
  · rcases hk with hk | hk <;> simp [hk]

theorem yOffsetStage_event_shape (c : Ctx) (density : Option DataExpr) (e : Event)
    (h : e ∈ (yOffsetStage c density).events) : ∃ d, e = Event.updateAesY d := by
  unfold yOffsetStage at h
  repeat' split at h
  all_goals simp_all

theorem yOffsetStage_log (c : Ctx) (density : Option DataExpr) :
    (yOffsetStage c density).log = [] := by
  unfold yOffsetStage
  repeat' split
  all_goals rfl

theorem yOffsetStage_ok (c : Ctx) (density : Option DataExpr)
    (hd : density ≠ none) : (yOffsetStage c density).err = none := by
  unfold yOffsetStage
  repeat' split
  all_goals simp_all

theorem ciStage_event_shape (c : Ctx) (e : Event)
    (h : e ∈ (ciStage c).events) :
    ∃ ckw v, c.pkGet "credible_interval" = some ckw ∧ ciData c = some v ∧
      e = .map { visual := "line_x", artist := "credible_interval",
                 data := some v,
                 ignoreAes := (filter_aes c.pc c.aesMap "credible_interval" c.sample_dims).ignore,
                 kwargs := ciKwargs c ckw } := by
  unfold ciStage at h
  split at h
  · simp at h
  · next ckw heq =>
    split at h
    · simp at h
    · next v heqv =>
      simp only [List.mem_singleton] at h
      exact ⟨ckw, v, heq, heqv, h⟩

theorem ciStage_log_ge (c : Ctx) : ∀ i ∈ (ciStage c).log, 1000 ≤ i := by
  intro i hi
  unfold ciStage at hi
  repeat' split at hi
  all_goals simp_all [ciColorLog]

theorem ciStage_ok (c : Ctx)
    (hci : c.ci_kind = "eti" ∨ c.ci_kind = "hdi") : (ciStage c).err = none := by
  unfold ciStage
  split
  · rfl
  · split
    · next heqv =>
      unfold ciData at heqv
      rcases hci with h | h <;> simp [h] at heqv
    · rfl

theorem peScatter_event_shape (c : Ctx) (point : DataExpr) (e : Event)
    (h : e ∈ (peScatter c point).1) :
    ∃ pkw, c.pkGet "point_estimate" = some pkw ∧
      e = .map { visual := "scatter_x", artist := "point_estimate",
                 data := some point,
                 ignoreAes := (filter_aes c.pc c.aesMap "point_estimate" c.sample_dims).ignore,
                 kwargs :=
                   if (filter_aes c.pc c.aesMap "point_estimate" c.sample_dims).aes.contains "color"
                   then pkw else dsetdefault pkw "color" "gray" } := by
  unfold peScatter at h
  split at h
  · simp at h
  · next pkw heq =>
    simp only [List.mem_singleton] at h
    exact ⟨pkw, heq, h⟩

theorem peStage_event_shape (c : Ctx) (density : Option DataExpr) (e : Event)
    (h : e ∈ (peStage c density).events) :
    ∃ p, pePoint c = some p ∧ ∃ m, e = Event.map m ∧
      ((m.artist = "point_estimate" ∧ c.pkGet "point_estimate" ≠ none ∧
         m.data = some p ∧
         m.ignoreAes = (filter_aes c.pc c.aesMap "point_estimate" c.sample_dims).ignore) ∨
       (m.artist = "point_estimate_text" ∧ c.pkGet "point_estimate_text" ≠ none ∧
         m.ignoreAes = (filter_aes c.pc c.aesMap "point_estimate_text" c.sample_dims).ignore)) := by
  unfold peStage at h
  split at h
  · simp at h
  · split at h
    · simp at h
    · next p hp =>
      refine ⟨p, hp, ?_⟩
      split at h
      · obtain ⟨pkw, hpkw, he⟩ := peScatter_event_shape c p e h
        subst he
        exact ⟨_, rfl, Or.inl ⟨rfl, by simp [hpkw], rfl, rfl⟩⟩
      · next ptkw hpet =>
        split at h
        · obtain ⟨pkw, hpkw, he⟩ := peScatter_event_shape c p e h
          subst he
          exact ⟨_, rfl, Or.inl ⟨rfl, by simp [hpkw], rfl, rfl⟩⟩
        · next py hpy =>
          rw [List.mem_append] at h
          rcases h with h | h
          · obtain ⟨pkw, hpkw, he⟩ := peScatter_event_shape c p e h
            subst he
            exact ⟨_, rfl, Or.inl ⟨rfl, by simp [hpkw], rfl, rfl⟩⟩
          · simp only [List.mem_singleton] at h
            subst h
            exact ⟨_, rfl, Or.inr ⟨rfl, by simp [hpet], rfl⟩⟩

theorem peScatter_log_ge (c : Ctx) (point : DataExpr) :
    ∀ i ∈ (peScatter c point).2, 1000 ≤ i := by
  intro i hi
  unfold peScatter at hi
  repeat' split at hi
  all_goals simp_all

theorem petLog_ge (c : Ctx) : ∀ i ∈ petLog c, 1000 ≤ i := by
  intro i hi
  unfold petLog at hi
  repeat' split at hi
  all_goals simp_all

theorem peStage_log_ge (c : Ctx) (density : Option DataExpr) :
    ∀ i ∈ (peStage c density).log, 1000 ≤ i := by
  intro i hi
  unfold peStage at hi
  split at hi
  · simp at hi
  · split at hi
    · simp at hi
    · split at hi
      · exact peScatter_log_ge _ _ i hi
      · split at hi
        · exact peScatter_log_ge _ _ i hi
        · rw [List.mem_append] at hi
          rcases hi with hi | hi
          · exact peScatter_log_ge _ _ i hi
          · exact petLog_ge _ i hi

theorem peStage_off (c : Ctx) (density : Option DataExpr)
    (hpe : c.pkGet "point_estimate" = none)
    (hpet : c.pkGet "point_estimate_text" = none) :
    peStage c density = {} := by
  unfold peStage
  simp [hpe, hpet]

theorem peStage_err_unimplemented (c : Ctx) (density : Option DataExpr)
    (h : c.pkGet "point_estimate" ≠ none ∨ c.pkGet "point_estimate_text" ≠ none)
    (hp : pePoint c = none) :
    peStage c density = { err := some (.notImplementedError "coming soon") } := by
  unfold peStage
  rcases h with h | h
  · cases hpk : c.pkGet "point_estimate" with
    | none => exact absurd hpk h
    | some w => simp [hpk, hp]
  · cases hpk : c.pkGet "point_estimate_text" with
    | none => exact absurd hpk h
    | some w => simp [hpk, hp]

theorem titleStage_event_shape (c : Ctx) (e : Event)
    (h : e ∈ (titleStage c).events) :
    ∃ m, e = Event.map m ∧ m.artist = "title" := by
  unfold titleStage at h
  split at h
  · simp at h
  · simp only [List.mem_singleton] at h
    subst h
    exact ⟨_, rfl, rfl⟩

theorem titleStage_log_ge (c : Ctx) : ∀ i ∈ (titleStage c).log, 1000 ≤ i := by
  intro i hi
  unfold titleStage at hi
  repeat' split at hi
  all_goals simp_all

theorem removeAxisStage_event_shape (c : Ctx) (e : Event)
    (h : e ∈ removeAxisStage c) :
    ∃ m, e = Event.map m ∧ m.artist = "" ∧ m.visual = "remove_axis" := by
  unfold removeAxisStage at h
  split at h
  · simp only [List.mem_singleton] at h
    subst h
    exact ⟨_, rfl, rfl, rfl⟩
  · simp at h

theorem pcStage_some (a : Args) (rc : RCParams) (dist : Distribution)
    (sd : List String) (pc0 : PlotCollection)
    (h : a.plot_collection = some pc0) :
    pcStage a rc dist sd = { pc := pc0 } := by
  simp [pcStage, h]

theorem pcStage_none (a : Args) (rc : RCParams) (dist : Distribution)
    (sd : List String) (h : a.plot_collection = none) :
    pcStage a rc dist sd =
      { pc := PlotCollection.wrap dist (a.backend.getD rc.plot_backend)
          (pcAesStep a dist sd).1,
        events := [.wrap (a.backend.getD rc.plot_backend) (pcAesStep a dist sd).1],
        log := [1000, 1000] ++ (pcAesStep a dist sd).2 } := by
  simp [pcStage, h]

theorem pcStage_event_shape (a : Args) (rc : RCParams) (dist : Distribution)
    (sd : List String) (e : Event) (h : e ∈ (pcStage a rc dist sd).events) :
    a.plot_collection = none ∧
      e = .wrap (a.backend.getD rc.plot_backend) (pcAesStep a dist sd).1 := by
  unfold pcStage at h
  split at h
  · simp at h
  · next heq =>
    simp only [List.mem_singleton] at h
    exact ⟨heq, h⟩

theorem pcStage_log_ge (a : Args) (rc : RCParams) (dist : Distribution)
    (sd : List String) : ∀ i ∈ (pcStage a rc dist sd).log, 1000 ≤ i := by
  intro i hi
  unfold pcStage at hi
  split at hi
  · simp at hi
  · unfold pcAesStep at hi
    split at hi
    all_goals simp_all
    all_goals omega

theorem resolveAesMap_log_ge (a : Args) (dist : Distribution) (kind : String)
    (pc : PlotCollection) : ∀ i ∈ (resolveAesMap a dist kind pc).2, 1000 ≤ i := by
  intro i hi
  unfold resolveAesMap at hi
  repeat' split at hi
  all_goals simp_all

/-- The return value of the body: the collection from the collection
stage, or one of the exceptions of the sections. -/
theorem mainRun_ret_cases (a : Args) (rc : RCParams) :
    (mainRun a rc).ret = .ok (thePC a rc) ∨
      (∃ m, (mainRun a rc).ret = .err (.notImplementedError m)) ∨
      (∃ n, (mainRun a rc).ret = .err (.nameError n)) := by
  unfold mainRun
  split
  · next e heq =>
    have h2 := densityStage_err_shape _ e heq
    subst h2
    exact Or.inr (Or.inl ⟨"coming soon", rfl⟩)
  · split
    · next e heq =>
      have h2 := yOffsetStage_err_shape _ _ e heq
      subst h2
      exact Or.inr (Or.inr ⟨"density", rfl⟩)
    · split
      · next e heq =>
        have h2 := ciStage_err_shape _ e heq
        subst h2
        exact Or.inr (Or.inr ⟨"ci", rfl⟩)
      · split
        · next e heq =>
          rcases peStage_err_shape _ _ e heq with h2 | h2 <;> subst h2
          · exact Or.inr (Or.inl ⟨"coming soon", rfl⟩)
          · exact Or.inr (Or.inr ⟨"point_y", rfl⟩)
        · exact Or.inl rfl

theorem mainRun_not_valueError (a : Args) (rc : RCParams) :
    (mainRun a rc).ret.isValueError = false := by
  rcases mainRun_ret_cases a rc with h | ⟨m, h⟩ | ⟨n, h⟩ <;>
    rw [h] <;> rfl

theorem mainRun_resolved (a : Args) (rc : RCParams) :
    (mainRun a rc).resolved = some (theResolved a rc) := by
  unfold mainRun
  repeat' split
  all_goals rfl

theorem mainRun_ret_ok (a : Args) (rc : RCParams) (pc' : PlotCollection)
    (h : (mainRun a rc).ret = .ok pc') : pc' = thePC a rc := by
  unfold mainRun at h
  repeat' split at h
  all_goals simp_all

theorem mainRun_event_mem (a : Args) (rc : RCParams) (e : Event)
    (he : e ∈ (mainRun a rc).events) :
    e ∈ baseEvents a rc ∨ e ∈ (densityStage (theCtx a rc)).events ∨
      e ∈ (yOffsetStage (theCtx a rc) (densityStage (theCtx a rc)).density).events ∨
      e ∈ (ciStage (theCtx a rc)).events ∨
      e ∈ (peStage (theCtx a rc) (densityStage (theCtx a rc)).density).events ∨
      e ∈ (titleStage (theCtx a rc)).events ∨
      e ∈ removeAxisStage (theCtx a rc) := by
  unfold mainRun at he
  repeat' split at he
  all_goals simp only [List.mem_append] at he
  all_goals tauto

theorem mainRun_base_sub (a : Args) (rc : RCParams) (e : Event)
    (he : e ∈ baseEvents a rc) : e ∈ (mainRun a rc).events := by
  unfold mainRun
  repeat' split
  all_goals simp [List.mem_append, he]

theorem mainRun_log_mem (a : Args) (rc : RCParams) (i : Nat)
    (hi : i ∈ (mainRun a rc).mutLog) :
    i ∈ baseLog a rc ∨ i ∈ (densityStage (theCtx a rc)).log ∨
      i ∈ (yOffsetStage (theCtx a rc) (densityStage (theCtx a rc)).density).log ∨
      i ∈ (ciStage (theCtx a rc)).log ∨
      i ∈ (peStage (theCtx a rc) (densityStage (theCtx a rc)).density).log ∨
      i ∈ (titleStage (theCtx a rc)).log := by
  unfold mainRun at hi
  repeat' split at hi
  all_goals simp only [List.mem_append] at hi
  all_goals tauto

theorem mainRun_log_ge (a : Args) (rc : RCParams) :
    ∀ i ∈ (mainRun a rc).mutLog, 1000 ≤ i := by
  intro i hi
  rcases mainRun_log_mem a rc i hi with h | h | h | h | h | h
  · unfold baseLog at h
    rw [List.mem_append] at h
    rcases h with h | h
    · exact pcStage_log_ge _ _ _ _ i h
    · exact resolveAesMap_log_ge _ _ _ _ i h
  · rw [densityStage_log] at h
    simp at h
  · rw [yOffsetStage_log] at h
    simp at h
  · exact ciStage_log_ge _ i h
  · exact peStage_log_ge _ _ i h
  · exact titleStage_log_ge _ i h

/-- `stats_kwargs.get(key, {})` read off the caller's argument. -/
def statsKWGet (a : Args) (k : String) : KW :=
  match dlookup (statsKwargsVal a) k with
  | some o => o.val
  | none => []

/-- The contents of the caller's `pc_kwargs["aes"]` (`{}` when absent). -/
def callerAesDict (a : Args) : List (String × List String) :=
  (((pcKwargsVal a).aes).map (fun o => o.val)).getD []

theorem pcK1_cols (a : Args) : (pcK1 a).cols = (pcKwargsVal a).cols := by
  unfold pcK1
  split
  all_goals rfl

theorem pcK1_aes (a : Args) : (pcK1 a).aes = (pcKwargsVal a).aes := by
  unfold pcK1
  split
  all_goals rfl

theorem pcK2_aes (a : Args) (dist : Distribution) (sd : List String) :
    (pcK2 a dist sd).aes = (pcKwargsVal a).aes := by
  unfold pcK2
  split
  all_goals rw [pcK1_aes]

theorem pcK2_cols_default (a : Args) (dist : Distribution) (sd : List String)
    (h : (pcKwargsVal a).cols = none) :
    (pcK2 a dist sd).cols = some (defaultCols dist sd) := by
  unfold pcK2
  split
  · rfl
  · next v heq =>
    rw [pcK1_cols] at heq
    rw [h] at heq
    cases heq

/-! ### Claim theorems -/

/-- C2: `plot_dist` raises `ValueError` if and only if its `ci_kind`
argument is not one of `"hdi"`, `"eti"` or `None`; the validation happens
before any default resolution, statistics computation or drawing dispatch,
so on this error the trace is empty, nothing was resolved, and no dict was
mutated. -/
theorem plot_dist_valueError_iff_bad_ci_kind (a : Args) (rc : RCParams) :
    ((plot_dist a rc).ret.isValueError = true ↔ ¬ ciKindOk a.ci_kind) ∧
    (¬ ciKindOk a.ci_kind →
      plot_dist a rc =
        { events := [], mutLog := [], resolved := none,
          ret := .err (.valueError "ci_kind must be either 'hdi' or 'eti'") }) := by
  refine ⟨⟨?_, ?_⟩, ?_⟩
  · intro h hok
    rw [plot_dist, if_pos hok] at h
    rw [mainRun_not_valueError] at h
    exact Bool.false_ne_true h
  · intro hbad
    rw [plot_dist, if_neg hbad]
    rfl
  · intro hbad
    rw [plot_dist, if_neg hbad]

/-- Concrete instantiation of C2: a call with `ci_kind="bogus"` raises
`ValueError` with an empty trace, and a call with `ci_kind=None` does
not raise `ValueError`. -/
theorem plot_dist_valueError_iff_bad_ci_kind_witness :
    (plot_dist { dt := exDT, ci_kind := some "bogus" } exRC : RunResult) =
      { events := [], mutLog := [], resolved := none,
        ret := .err (.valueError "ci_kind must be either 'hdi' or 'eti'") } :=
  (plot_dist_valueError_iff_bad_ci_kind
    { dt := exDT, ci_kind := some "bogus" } exRC).2 (by decide)

/-- C6: `plot_dist` is deterministic: two calls with equal arguments and
equal `rcParams` configuration produce equal results (the same collection
contents and the same sequence of drawing dispatches). -/
theorem plot_dist_deterministic (a1 a2 : Args) (rc1 rc2 : RCParams)
    (ha : a1 = a2) (hrc : rc1 = rc2) : plot_dist a1 rc1 = plot_dist a2 rc2 := by
  subst ha
  subst hrc
  rfl

/-- Concrete instantiation of C6 at a default call. -/
theorem plot_dist_deterministic_witness :
    plot_dist { dt := exDT } exRC = plot_dist { dt := exDT } exRC :=
  plot_dist_deterministic _ _ _ _ rfl rfl

/-- C5: `plot_dist` does not mutate its caller-supplied mappings: every
dict it mutates in place is one of the fresh local copies (ids at least
1000), never one of the dict objects the caller passed in (`pc_kwargs`,
`aes_map`, `plot_kwargs`, `stats_kwargs`, or any dict nested in them);
the input data is only read (`process_group_variables_coords` is pure). -/
theorem plot_dist_no_caller_mutation (a : Args) (rc : RCParams)
    (h : ∀ i ∈ a.callerIds, i < 1000) :
    List.Disjoint (plot_dist a rc).mutLog a.callerIds := by
  intro i hi hmem
  have h1 : 1000 ≤ i := by
    unfold plot_dist at hi
    split at hi
    · exact mainRun_log_ge a rc i hi
    · simp at hi
  have h2 := h i hmem
  omega

/-- Concrete instantiation of C5: a call receiving caller dicts with ids
0-3 mutates none of them. -/
theorem plot_dist_no_caller_mutation_witness :
    List.Disjoint
      (plot_dist { dt := exDT, pc_kwargs := some ⟨0, {}⟩,
                   aes_map := some ⟨1, []⟩, plot_kwargs := some ⟨2, []⟩,
                   stats_kwargs := some ⟨3, []⟩ } exRC).mutLog
      (Args.callerIds { dt := exDT, pc_kwargs := some ⟨0, {}⟩,
                        aes_map := some ⟨1, []⟩, plot_kwargs := some ⟨2, []⟩,
                        stats_kwargs := some ⟨3, []⟩ }) :=
  plot_dist_no_caller_mutation
    { dt := exDT, pc_kwargs := some ⟨0, {}⟩, aes_map := some ⟨1, []⟩,
      plot_kwargs := some ⟨2, []⟩, stats_kwargs := some ⟨3, []⟩ } exRC
    (by decide)

/-- C8: for a resolved kind other than "kde" or "ecdf" (such as the
documented "hist" and "dot") with the density artist not disabled, a call
that passes the `ci_kind` validation raises `NotImplementedError` before
dispatching any drawing call. -/
theorem plot_dist_unimplemented_kind (a : Args) (rc : RCParams)
    (hv : ciKindOk a.ci_kind)
    (hk1 : resolveKind a rc ≠ "kde") (hk2 : resolveKind a rc ≠ "ecdf")
    (hon : (theCtx a rc).pkGet (resolveKind a rc) ≠ none) :
    (plot_dist a rc).ret = .err (.notImplementedError "coming soon") ∧
      ∀ m : MapCall, Event.map m ∉ (plot_dist a rc).events := by
  have hkk : (theCtx a rc).kind = resolveKind a rc := rfl
  have herr : (densityStage (theCtx a rc)).err =
      some (.notImplementedError "coming soon") := by
    unfold densityStage
    cases hpk : (theCtx a rc).pkGet ((theCtx a rc).kind) with
    | none => exact absurd hpk hon
    | some dkw => simp [hpk, hkk, hk1, hk2]
  have hout := densityStage_err_out _ _ herr
  have hmain : mainRun a rc =
      { events := baseEvents a rc ++ (densityStage (theCtx a rc)).events,
        mutLog := baseLog a rc ++ (densityStage (theCtx a rc)).log,
        resolved := some (theResolved a rc),
        ret := .err (.notImplementedError "coming soon") } := by
    unfold mainRun
    rw [herr]
  rw [plot_dist, if_pos hv, hmain]
  refine ⟨rfl, ?_⟩
  intro m hm
  rw [hout] at hm
  simp only [List.mem_append] at hm
  rcases hm with hm | hm
  · rcases pcStage_event_shape _ _ _ _ _ hm with ⟨_, heq⟩
    simp at heq
  · simp at hm

/-- Concrete instantiation of C8: `kind="hist"` raises
`NotImplementedError`. -/
theorem plot_dist_unimplemented_kind_witness :
    (plot_dist { dt := exDT, kind := some "hist" } exRC).ret =
      .err (.notImplementedError "coming soon") :=
  (plot_dist_unimplemented_kind { dt := exDT, kind := some "hist" } exRC
    (by decide) (by decide) (by decide) (by decide)).1

/-- C1: every summary statistic handed to a drawing call comes from the
external statistics layer with the exact arguments of the source: the "kde"
artist's data is `distribution.azstats.kde(dims=density_dims,
**stats_kwargs.get("density", {}))`, the "ecdf" artist's data is the
corresponding `azstats.ecdf` call, and the "credible_interval" artist's
data is `azstats.eti(prob=ci_prob, dims=ci_dims, ...)` under
`ci_kind="eti"` and `azstats.hdi(prob=ci_prob, dims=ci_dims, ...)` under
`ci_kind="hdi"`, where the dims are the ones `filter_aes` returns. -/
theorem plot_dist_stats_delegated (a : Args) (rc : RCParams)
    (res : Resolved) (m : MapCall)
    (hres : (plot_dist a rc).resolved = some res)
    (_hok : (plot_dist a rc).ret.isOk = true)
    (hm : Event.map m ∈ (plot_dist a rc).events) :
    (m.artist = "kde" → m.data = some (.kde
      (filter_aes res.pc res.aes_map "kde" res.sample_dims).dims
      (statsKWGet a "density"))) ∧
    (m.artist = "ecdf" → m.data = some (.ecdf
      (filter_aes res.pc res.aes_map "ecdf" res.sample_dims).dims
      (statsKWGet a "density"))) ∧
    (m.artist = "credible_interval" →
      (res.ci_kind = "eti" ∧ m.data = some (.eti res.ci_prob
        (filter_aes res.pc res.aes_map "credible_interval" res.sample_dims).dims
        (statsKWGet a "credible_interval"))) ∨
      (res.ci_kind = "hdi" ∧ m.data = some (.hdi res.ci_prob
        (filter_aes res.pc res.aes_map "credible_interval" res.sample_dims).dims
        (statsKWGet a "credible_interval")))) := by
  have hv : ciKindOk a.ci_kind := by
    by_contra hbad
    rw [plot_dist, if_neg hbad] at hres
    simp at hres
  rw [plot_dist, if_pos hv] at hres hm
  rw [mainRun_resolved] at hres
  have hres2 : res = theResolved a rc := (Option.some.inj hres).symm
  subst hres2
  rcases mainRun_event_mem a rc _ hm with hb | hd | hy | hc | hp | ht | hr
  · rcases pcStage_event_shape _ _ _ _ _ hb with ⟨_, heq⟩
    simp at heq
  · rcases densityStage_event_shape _ _ hd with ⟨dkw, hdkw, hcase⟩
    rcases hcase with ⟨hkind, heq⟩ | ⟨hkind, heq⟩
    · injection heq with heq2
      subst heq2
      refine ⟨fun _ => ?_, fun hart => by simp at hart, fun hart => by simp at hart⟩
      show some (DataExpr.kde
        (filter_aes (theCtx a rc).pc (theCtx a rc).aesMap (theCtx a rc).kind
          (theCtx a rc).sample_dims).dims ((theCtx a rc).statsGet "density")) = _
      rw [hkind]
      rfl
    · injection heq with heq2
      subst heq2
      refine ⟨fun hart => by simp at hart, fun _ => ?_, fun hart => by simp at hart⟩
      show some (DataExpr.ecdf
        (filter_aes (theCtx a rc).pc (theCtx a rc).aesMap (theCtx a rc).kind
          (theCtx a rc).sample_dims).dims ((theCtx a rc).statsGet "density")) = _
      rw [hkind]
      rfl
  · rcases yOffsetStage_event_shape _ _ _ hy with ⟨d, heq⟩
    simp at heq
  · rcases ciStage_event_shape _ _ hc with ⟨ckw, v, hckw, hval, heq⟩
    injection heq with heq2
    subst heq2
    refine ⟨fun hart => by simp at hart, fun hart => by simp at hart, fun _ => ?_⟩
    unfold ciData at hval
    split at hval
    · next hci =>
      left
      exact ⟨hci, hval.symm⟩
    · split at hval
      · next hci =>
        right
        exact ⟨hci, hval.symm⟩
      · cases hval
  · rcases peStage_event_shape _ _ _ hp with ⟨p, hpp, mm, heq, hcase⟩
    injection heq with heq2
    subst heq2
    rcases hcase with ⟨hart, _⟩ | ⟨hart, _⟩ <;>
      exact ⟨fun h2 => by rw [hart] at h2; simp at h2,
             fun h2 => by rw [hart] at h2; simp at h2,
             fun h2 => by rw [hart] at h2; simp at h2⟩
  · rcases titleStage_event_shape _ _ ht with ⟨mm, heq, hart⟩
    injection heq with heq2
    subst heq2
    exact ⟨fun h2 => by rw [hart] at h2; simp at h2,
           fun h2 => by rw [hart] at h2; simp at h2,
           fun h2 => by rw [hart] at h2; simp at h2⟩
  · rcases removeAxisStage_event_shape _ _ hr with ⟨mm, heq, hart, _⟩
    injection heq with heq2
    subst heq2
    exact ⟨fun h2 => by rw [hart] at h2; simp at h2,
           fun h2 => by rw [hart] at h2; simp at h2,
           fun h2 => by rw [hart] at h2; simp at h2⟩

/-- Concrete instantiation of C1: in a default single-model call the "kde"
artist's data is exactly the `azstats.kde` call on the sample dims. -/
theorem plot_dist_stats_delegated_witness :
    ({ visual := "line_xy", artist := "kde",
       data := some (.kde ["chain", "draw"] []), ignoreAes := [],
       kwargs := [] } : MapCall).data =
      some (.kde (filter_aes (theResolved { dt := exDT } exRC).pc
        (theResolved { dt := exDT } exRC).aes_map "kde"
        (theResolved { dt := exDT } exRC).sample_dims).dims
        (statsKWGet { dt := exDT } "density")) :=
  (plot_dist_stats_delegated { dt := exDT } exRC
    (theResolved { dt := exDT } exRC)
    { visual := "line_xy", artist := "kde",
      data := some (.kde ["chain", "draw"] []), ignoreAes := [], kwargs := [] }
    (by decide) (by decide) (by decide)).1 rfl

theorem thePC_backend_irrelevant (a : Args) (rc : RCParams)
    (pc0 : PlotCollection) (b2 : Option String)
    (hpc : a.plot_collection = some pc0) :
    thePC { a with backend := b2 } rc = thePC a rc := by
  unfold thePC
  rw [pcStage_some { a with backend := b2 } rc _ _ pc0 hpc,
      pcStage_some a rc _ _ pc0 hpc]

theorem mainRun_backend_irrelevant (a : Args) (rc : RCParams)
    (pc0 : PlotCollection) (b2 : Option String)
    (hpc : a.plot_collection = some pc0) :
    mainRun { a with backend := b2 } rc = mainRun a rc := by
  have hPC := thePC_backend_irrelevant a rc pc0 b2 hpc
  have hAM : theAesMap { a with backend := b2 } rc = theAesMap a rc := by
    unfold theAesMap
    rw [hPC]
    rfl
  have hCtx : theCtx { a with backend := b2 } rc = theCtx a rc := by
    unfold theCtx
    rw [hPC, hAM]
    rfl
  have hRes : theResolved { a with backend := b2 } rc = theResolved a rc := by
    unfold theResolved
    rw [hPC, hAM]
    rfl
  have hBE : baseEvents { a with backend := b2 } rc = baseEvents a rc := by
    unfold baseEvents
    rw [pcStage_some { a with backend := b2 } rc _ _ pc0 hpc,
        pcStage_some a rc _ _ pc0 hpc]
  have hBL : baseLog { a with backend := b2 } rc = baseLog a rc := by
    unfold baseLog
    rw [pcStage_some { a with backend := b2 } rc _ _ pc0 hpc,
        pcStage_some a rc _ _ pc0 hpc, hPC]
    rfl
  unfold mainRun
  rw [hCtx, hRes, hBE, hBL, hPC]

/-- C7: `plot_dist` returns a `PlotCollection` and delegates all drawing
through it: with `plot_collection=None` a new collection is created by
`PlotCollection.wrap` with the given backend (or `rcParams["plot.backend"]`
when that is `None` too) and is the one returned; with a caller-supplied
collection that same object is used and returned, no `wrap` call happens,
and the `backend` argument has no effect on the result. -/
theorem plot_dist_collection_delegation (a : Args) (rc : RCParams) :
    (a.plot_collection = none → ciKindOk a.ci_kind →
      ∃ pk, Event.wrap (a.backend.getD rc.plot_backend) pk ∈ (plot_dist a rc).events ∧
        ∀ pc', (plot_dist a rc).ret = .ok pc' →
          pc' = PlotCollection.wrap (processedDist a)
            (a.backend.getD rc.plot_backend) pk) ∧
    (∀ pc0, a.plot_collection = some pc0 →
      (∀ pc', (plot_dist a rc).ret = .ok pc' → pc' = pc0) ∧
      (∀ b pk, Event.wrap b pk ∉ (plot_dist a rc).events) ∧
      (∀ b2, plot_dist { a with backend := b2 } rc = plot_dist a rc)) := by
  constructor
  · intro hpc hv
    rw [plot_dist, if_pos hv]
    refine ⟨(pcAesStep a (processedDist a) (resolveSampleDims a rc)).1, ?_, ?_⟩
    · apply mainRun_base_sub
      unfold baseEvents
      rw [pcStage_none a rc _ _ hpc]
      simp
    · intro pc' hret
      have h1 := mainRun_ret_ok a rc pc' hret
      rw [h1]
      unfold thePC
      rw [pcStage_none a rc _ _ hpc]
  · intro pc0 hpc
    refine ⟨?_, ?_, ?_⟩
    · intro pc' hret
      by_cases hv : ciKindOk a.ci_kind
      · rw [plot_dist, if_pos hv] at hret
        have h1 := mainRun_ret_ok a rc pc' hret
        rw [h1]
        unfold thePC
        rw [pcStage_some a rc _ _ pc0 hpc]
      · rw [plot_dist, if_neg hv] at hret
        cases hret
    · intro b pk hw
      by_cases hv : ciKindOk a.ci_kind
      · rw [plot_dist, if_pos hv] at hw
        rcases mainRun_event_mem a rc _ hw with hb | hd | hy | hc | hp | ht | hr
        · rcases pcStage_event_shape _ _ _ _ _ hb with ⟨hnone, _⟩
          rw [hpc] at hnone
          cases hnone
        · rcases densityStage_event_shape _ _ hd with ⟨_, _, hcase⟩
          rcases hcase with ⟨_, heq⟩ | ⟨_, heq⟩ <;> cases heq
        · rcases yOffsetStage_event_shape _ _ _ hy with ⟨d, heq⟩
          cases heq
        · rcases ciStage_event_shape _ _ hc with ⟨_, _, _, _, heq⟩
          cases heq
        · rcases peStage_event_shape _ _ _ hp with ⟨_, _, _, heq, _⟩
          cases heq
        · rcases titleStage_event_shape _ _ ht with ⟨_, heq, _⟩
          cases heq
        · rcases removeAxisStage_event_shape _ _ hr with ⟨_, heq, _⟩
          cases heq
      · rw [plot_dist, if_neg hv] at hw
        simp at hw
    · intro b2
      have hci : ({ a with backend := b2 } : Args).ci_kind = a.ci_kind := rfl
      by_cases hv : ciKindOk a.ci_kind
      · rw [plot_dist, plot_dist, if_pos hv, if_pos (by rw [hci]; exact hv)]
        exact mainRun_backend_irrelevant a rc pc0 b2 hpc
      · rw [plot_dist, plot_dist, if_neg hv, if_neg (by rw [hci]; exact hv)]

/-- Concrete instantiation of C7: with a caller-supplied collection the
`backend` argument does not change the result. -/
theorem plot_dist_collection_delegation_witness :
    plot_dist { dt := exDT, plot_collection := some { aes := [] },
                backend := some "bokeh" } exRC =
      plot_dist { dt := exDT, plot_collection := some { aes := [] } } exRC :=
  ((plot_dist_collection_delegation
      { dt := exDT, plot_collection := some { aes := [] } } exRC).2
    { aes := [] } rfl).2.2 (some "bokeh")

theorem mainRun_ret_of_ok (a : Args) (rc : RCParams)
    (h1 : (densityStage (theCtx a rc)).err = none)
    (h2 : (yOffsetStage (theCtx a rc) (densityStage (theCtx a rc)).density).err = none)
    (h3 : (ciStage (theCtx a rc)).err = none)
    (h4 : (peStage (theCtx a rc) (densityStage (theCtx a rc)).density).err = none) :
    (mainRun a rc).ret = .ok (thePC a rc) := by
  unfold mainRun
  rw [h1, h2, h3, h4]

theorem mainRun_ret_of_pe_err (a : Args) (rc : RCParams) (e : Err)
    (h1 : (densityStage (theCtx a rc)).err = none)
    (h2 : (yOffsetStage (theCtx a rc) (densityStage (theCtx a rc)).density).err = none)
    (h3 : (ciStage (theCtx a rc)).err = none)
    (h4 : (peStage (theCtx a rc) (densityStage (theCtx a rc)).density).err = some e) :
    (mainRun a rc).ret = .err e := by
  unfold mainRun
  rw [h1, h2, h3, h4]

theorem pePoint_none (c : Ctx) (h1 : c.point_estimate ≠ "mean")
    (h2 : c.point_estimate ≠ "median") : pePoint c = none := by
  unfold pePoint
  rw [if_neg h2, if_neg h1]

/-- C9: with a resolved point estimate other than "mean" or "median" (such
as the documented "mode"), a call that reaches the point-estimate section
(valid `ci_kind`, a "kde"/"ecdf" kind with the density artist enabled, and
a resolved `ci_kind` the source implements) raises `NotImplementedError`
unless both the "point_estimate" and "point_estimate_text" entries of
`plot_kwargs` are `False`, in which case no point estimate is computed, no
point-estimate artist is drawn, and the call returns normally. -/
theorem plot_dist_unimplemented_point_estimate (a : Args) (rc : RCParams)
    (hv : ciKindOk a.ci_kind)
    (hk : resolveKind a rc = "kde" ∨ resolveKind a rc = "ecdf")
    (hci : resolveCiKind a rc = "eti" ∨ resolveCiKind a rc = "hdi")
    (hdon : (theCtx a rc).pkGet (resolveKind a rc) ≠ none)
    (hpe1 : resolvePointEstimate a rc ≠ "mean")
    (hpe2 : resolvePointEstimate a rc ≠ "median") :
    ((theCtx a rc).pkGet "point_estimate" = none ∧
        (theCtx a rc).pkGet "point_estimate_text" = none →
      (plot_dist a rc).ret = .ok (thePC a rc) ∧
        ∀ m : MapCall, Event.map m ∈ (plot_dist a rc).events →
          m.artist ≠ "point_estimate" ∧ m.artist ≠ "point_estimate_text") ∧
    ((theCtx a rc).pkGet "point_estimate" ≠ none ∨
        (theCtx a rc).pkGet "point_estimate_text" ≠ none →
      (plot_dist a rc).ret = .err (.notImplementedError "coming soon")) := by
  have hdok := densityStage_ok_density (theCtx a rc) hdon hk
  have hyo := yOffsetStage_ok (theCtx a rc) _ hdok.2
  have hcis := ciStage_ok (theCtx a rc) hci
  constructor
  · rintro ⟨hp1, hp2⟩
    have hpes : peStage (theCtx a rc) (densityStage (theCtx a rc)).density = {} :=
      peStage_off _ _ hp1 hp2
    refine ⟨?_, ?_⟩
    · rw [plot_dist, if_pos hv]
      exact mainRun_ret_of_ok a rc hdok.1 hyo hcis (by rw [hpes])
    · intro m hm
      rw [plot_dist, if_pos hv] at hm
      rcases mainRun_event_mem a rc _ hm with hb | hd | hy | hc | hp | ht | hr
      · rcases pcStage_event_shape _ _ _ _ _ hb with ⟨_, heq⟩
        cases heq
      · rcases densityStage_event_shape _ _ hd with ⟨_, _, hcase⟩
        rcases hcase with ⟨_, heq⟩ | ⟨_, heq⟩ <;> injection heq with heq2 <;>
          subst heq2 <;> exact ⟨by simp, by simp⟩
      · rcases yOffsetStage_event_shape _ _ _ hy with ⟨d, heq⟩
        cases heq
      · rcases ciStage_event_shape _ _ hc with ⟨_, _, _, _, heq⟩
        injection heq with heq2
        subst heq2
        exact ⟨by simp, by simp⟩
      · rw [hpes] at hp
        simp at hp
      · rcases titleStage_event_shape _ _ ht with ⟨mm, heq, hart⟩
        injection heq with heq2
        subst heq2
        constructor
        · intro h2
          rw [hart] at h2
          simp at h2
        · intro h2
          rw [hart] at h2
          simp at h2
      · rcases removeAxisStage_event_shape _ _ hr with ⟨mm, heq, hart, _⟩
        injection heq with heq2
        subst heq2
        constructor
        · intro h2
          rw [hart] at h2
          simp at h2
        · intro h2
          rw [hart] at h2
          simp at h2
  · intro hne
    have hp : pePoint (theCtx a rc) = none := pePoint_none _ hpe1 hpe2
    have hpes := peStage_err_unimplemented (theCtx a rc)
      (densityStage (theCtx a rc)).density hne hp
    rw [plot_dist, if_pos hv]
    exact mainRun_ret_of_pe_err a rc _ hdok.1 hyo hcis (by rw [hpes])

/-- Concrete instantiation of C9: `point_estimate="mode"` raises
`NotImplementedError`. -/
theorem plot_dist_unimplemented_point_estimate_witness :
    (plot_dist { dt := exDT, point_estimate := some "mode" } exRC).ret =
      .err (.notImplementedError "coming soon") :=
  (plot_dist_unimplemented_point_estimate
    { dt := exDT, point_estimate := some "mode" } exRC
    (by decide) (by decide) (by decide) (by decide) (by decide) (by decide)).2
    (by decide)

theorem pcAesStep_cols (a : Args) (dist : Distribution) (sd : List String) :
    (pcAesStep a dist sd).1.cols = (pcK2 a dist sd).cols := by
  unfold pcAesStep
  split
  · rfl
  · rfl

theorem pcAesStep_aes_model (a : Args) (dist : Distribution) (sd : List String)
    (hm : dist.hasModel = true) :
    (pcAesStep a dist sd).1.aes = some ⟨1001,
      dsetdefault (dsetdefault (callerAesDict a) "color" ["model"])
        "y" ["model"]⟩ := by
  unfold pcAesStep
  rw [if_pos hm, pcK2_aes]
  rfl

theorem theAesMap_eq_step3 (a : Args) (rc : RCParams) :
    theAesMap a rc =
      aesMStep3 a (processedDist a) (resolveKind a rc) (thePC a rc) := rfl

theorem theAesMap_model_defaults (a : Args) (rc : RCParams)
    (hm : (processedDist a).hasModel = true)
    (hk1 : resolveKind a rc ≠ "credible_interval")
    (hk2 : resolveKind a rc ≠ "point_estimate") :
    dlookup (theAesMap a rc) "credible_interval" =
        some ((dlookup (aesMapVal a) "credible_interval").getD ["color", "y"]) ∧
      dlookup (theAesMap a rc) "point_estimate" =
        some ((dlookup (aesMapVal a) "point_estimate").getD ["color", "y"]) := by
  have h1ci : dlookup (aesMStep1 a (resolveKind a rc) (thePC a rc))
      "credible_interval" = dlookup (aesMapVal a) "credible_interval" := by
    unfold aesMStep1
    exact dlookup_dsetdefault_ne _ _ _ _ (Ne.symm hk1)
  have h1pe : dlookup (aesMStep1 a (resolveKind a rc) (thePC a rc))
      "point_estimate" = dlookup (aesMapVal a) "point_estimate" := by
    unfold aesMStep1
    exact dlookup_dsetdefault_ne _ _ _ _ (Ne.symm hk2)
  have h2 : aesMStep2 a (processedDist a) (resolveKind a rc) (thePC a rc) =
      dsetdefault (dsetdefault (aesMStep1 a (resolveKind a rc) (thePC a rc))
        "credible_interval" ["color", "y"]) "point_estimate" ["color", "y"] := by
    unfold aesMStep2
    rw [if_pos hm]
  have h2ci : dlookup (aesMStep2 a (processedDist a) (resolveKind a rc)
      (thePC a rc)) "credible_interval" =
      some ((dlookup (aesMapVal a) "credible_interval").getD ["color", "y"]) := by
    rw [h2, dlookup_dsetdefault_ne _ _ _ _ (by decide :
      ("credible_interval" : String) ≠ "point_estimate"),
      dlookup_dsetdefault_self, h1ci]
  have h2pe : dlookup (aesMStep2 a (processedDist a) (resolveKind a rc)
      (thePC a rc)) "point_estimate" =
      some ((dlookup (aesMapVal a) "point_estimate").getD ["color", "y"]) := by
    rw [h2, dlookup_dsetdefault_self,
      dlookup_dsetdefault_ne _ _ _ _ (by decide :
        ("point_estimate" : String) ≠ "credible_interval"), h1pe]
  rw [theAesMap_eq_step3]
  unfold aesMStep3
  split
  · constructor
    · rw [dlookup_dset_ne _ _ _ _ (by decide :
        ("credible_interval" : String) ≠ "point_estimate_text"), h2ci]
    · rw [dlookup_dset_ne _ _ _ _ (by decide :
        ("point_estimate" : String) ≠ "point_estimate_text"), h2pe]
  · exact ⟨h2ci, h2pe⟩

/-- C3: when the processed distribution carries a "model" coordinate and no
collection is supplied, the "color" and "y" aesthetics default to
`["model"]` in the `aes` mapping handed to `PlotCollection.wrap` (caller
entries are kept), and the "credible_interval" and "point_estimate" artists
default to the `["color", "y"]` aesthetics in the resolved `aes_map`
(again keeping caller entries); the hypotheses keep the density kind
distinct from the artist names that share the `aes_map` key space. -/
theorem plot_dist_model_aes_defaults (a : Args) (rc : RCParams)
    (hv : ciKindOk a.ci_kind)
    (hpc : a.plot_collection = none)
    (hm : (processedDist a).hasModel = true)
    (hk1 : resolveKind a rc ≠ "credible_interval")
    (hk2 : resolveKind a rc ≠ "point_estimate") :
    (∃ b pk, Event.wrap b pk ∈ (plot_dist a rc).events) ∧
    (∀ b pk, Event.wrap b pk ∈ (plot_dist a rc).events →
      ∃ o, pk.aes = some o ∧
        dlookup o.val "color" =
          some ((dlookup (callerAesDict a) "color").getD ["model"]) ∧
        dlookup o.val "y" =
          some ((dlookup (callerAesDict a) "y").getD ["model"])) ∧
    (∀ res, (plot_dist a rc).resolved = some res →
      dlookup res.aes_map "credible_interval" =
        some ((dlookup (aesMapVal a) "credible_interval").getD ["color", "y"]) ∧
      dlookup res.aes_map "point_estimate" =
        some ((dlookup (aesMapVal a) "point_estimate").getD ["color", "y"])) := by
  rw [plot_dist, if_pos hv]
  refine ⟨?_, ?_, ?_⟩
  · refine ⟨a.backend.getD rc.plot_backend,
      (pcAesStep a (processedDist a) (resolveSampleDims a rc)).1, ?_⟩
    apply mainRun_base_sub
    unfold baseEvents
    rw [pcStage_none a rc _ _ hpc]
    simp
  · intro b pk hw
    rcases mainRun_event_mem a rc _ hw with hb | hd | hy | hc | hp | ht | hr
    · rcases pcStage_event_shape _ _ _ _ _ hb with ⟨_, heq⟩
      injection heq with hb2 hpk2
      subst hpk2
      refine ⟨⟨1001, dsetdefault (dsetdefault (callerAesDict a) "color"
        ["model"]) "y" ["model"]⟩, pcAesStep_aes_model a _ _ hm, ?_, ?_⟩
      · rw [dlookup_dsetdefault_ne _ _ _ _ (by decide : ("color" : String) ≠ "y"),
          dlookup_dsetdefault_self]
      · rw [dlookup_dsetdefault_self,
          dlookup_dsetdefault_ne _ _ _ _ (by decide : ("y" : String) ≠ "color")]
    · rcases densityStage_event_shape _ _ hd with ⟨_, _, hcase⟩
      rcases hcase with ⟨_, heq⟩ | ⟨_, heq⟩ <;> cases heq
    · rcases yOffsetStage_event_shape _ _ _ hy with ⟨d, heq⟩
      cases heq
    · rcases ciStage_event_shape _ _ hc with ⟨_, _, _, _, heq⟩
      cases heq
    · rcases peStage_event_shape _ _ _ hp with ⟨_, _, _, heq, _⟩
      cases heq
    · rcases titleStage_event_shape _ _ ht with ⟨_, heq, _⟩
      cases heq
    · rcases removeAxisStage_event_shape _ _ hr with ⟨_, heq, _⟩
      cases heq
  · intro res hres
    rw [mainRun_resolved] at hres
    have hres2 : res = theResolved a rc := (Option.some.inj hres).symm
    subst hres2
    exact theAesMap_model_defaults a rc hm hk1 hk2

/-- Concrete instantiation of C3: with two models and default arguments the
wrap call carries `color` and `y` mapped to `["model"]`. -/
theorem plot_dist_model_aes_defaults_witness :
    ∃ o, (pcAesStep { dt := ⟨⟨["chain", "draw", "school", "model"], true⟩⟩ }
        (processedDist { dt := ⟨⟨["chain", "draw", "school", "model"], true⟩⟩ })
        (resolveSampleDims { dt := ⟨⟨["chain", "draw", "school", "model"], true⟩⟩ } exRC)).1.aes
        = some o ∧
      dlookup o.val "color" = some ((dlookup (callerAesDict
        { dt := ⟨⟨["chain", "draw", "school", "model"], true⟩⟩ }) "color").getD ["model"]) ∧
      dlookup o.val "y" = some ((dlookup (callerAesDict
        { dt := ⟨⟨["chain", "draw", "school", "model"], true⟩⟩ }) "y").getD ["model"]) :=
  (plot_dist_model_aes_defaults
    { dt := ⟨⟨["chain", "draw", "school", "model"], true⟩⟩ } exRC
    (by decide) (by decide) (by decide) (by decide) (by decide)).2.1
    (Option.getD { dt := ⟨⟨["chain", "draw", "school", "model"], true⟩⟩ : Args}.backend exRC.plot_backend)
    (pcAesStep { dt := ⟨⟨["chain", "draw", "school", "model"], true⟩⟩ }
      (processedDist { dt := ⟨⟨["chain", "draw", "school", "model"], true⟩⟩ })
      (resolveSampleDims { dt := ⟨⟨["chain", "draw", "school", "model"], true⟩⟩ } exRC)).1
    (by decide)

/-- C4: with no collection supplied and no caller "cols" entry, the facet
columns handed to `PlotCollection.wrap` are exactly `__variable__` followed
by every dimension of the processed distribution that is neither "model"
nor one of the sample dimensions; in particular neither "model" nor a
sample dimension appears among them (the hypothesis excludes the artificial
case of a sample dimension literally named `__variable__`). -/
theorem plot_dist_default_cols (a : Args) (rc : RCParams)
    (hv : ciKindOk a.ci_kind)
    (hpc : a.plot_collection = none)
    (hcols : (pcKwargsVal a).cols = none)
    (hvar : "__variable__" ∉ resolveSampleDims a rc) :
    (∃ b pk, Event.wrap b pk ∈ (plot_dist a rc).events) ∧
    (∀ b pk, Event.wrap b pk ∈ (plot_dist a rc).events →
      pk.cols = some ("__variable__" :: (processedDist a).dims.filter
        (fun d => !(d = "model" || (resolveSampleDims a rc).contains d))) ∧
      "model" ∉ ("__variable__" :: (processedDist a).dims.filter
        (fun d => !(d = "model" || (resolveSampleDims a rc).contains d))) ∧
      ∀ dd ∈ resolveSampleDims a rc,
        dd ∉ ("__variable__" :: (processedDist a).dims.filter
          (fun d => !(d = "model" || (resolveSampleDims a rc).contains d)))) := by
  rw [plot_dist, if_pos hv]
  constructor
  · refine ⟨a.backend.getD rc.plot_backend,
      (pcAesStep a (processedDist a) (resolveSampleDims a rc)).1, ?_⟩
    apply mainRun_base_sub
    unfold baseEvents
    rw [pcStage_none a rc _ _ hpc]
    simp
  · intro b pk hw
    have hpk : pk = (pcAesStep a (processedDist a) (resolveSampleDims a rc)).1 := by
      rcases mainRun_event_mem a rc _ hw with hb | hd | hy | hc | hp | ht | hr
      · rcases pcStage_event_shape _ _ _ _ _ hb with ⟨_, heq⟩
        exact (Event.wrap.inj heq).2
      · rcases densityStage_event_shape _ _ hd with ⟨_, _, hcase⟩
        rcases hcase with ⟨_, heq⟩ | ⟨_, heq⟩ <;> cases heq
      · rcases yOffsetStage_event_shape _ _ _ hy with ⟨d, heq⟩
        cases heq
      · rcases ciStage_event_shape _ _ hc with ⟨_, _, _, _, heq⟩
        cases heq
      · rcases peStage_event_shape _ _ _ hp with ⟨_, _, _, heq, _⟩
        cases heq
      · rcases titleStage_event_shape _ _ ht with ⟨_, heq, _⟩
        cases heq
      · rcases removeAxisStage_event_shape _ _ hr with ⟨_, heq, _⟩
        cases heq
    subst hpk
    refine ⟨?_, ?_, ?_⟩
    · rw [pcAesStep_cols, pcK2_cols_default a _ _ hcols]
      rfl
    · intro hmem
      rcases List.mem_cons.mp hmem with h | h
      · exact absurd h (by decide)
      · have h2 := (List.mem_filter.mp h).2
        simp at h2
    · intro dd hdd hmem
      rcases List.mem_cons.mp hmem with h | h
      · rw [h] at hdd
        exact hvar hdd
      · have h2 := (List.mem_filter.mp h).2
        simp only [Bool.not_eq_eq_eq_not, Bool.not_true, Bool.or_eq_false_iff] at h2
        have h3 := h2.2
        have h4 := List.elem_eq_true_of_mem hdd
        rw [show (resolveSampleDims a rc).contains dd =
          (resolveSampleDims a rc).elem dd from rfl] at h3
        rw [h4] at h3
        cases h3

/-- Concrete instantiation of C4: with dims `chain`, `draw`, `school`,
`model` and sample dims `chain`, `draw`, the default columns are
`__variable__` and `school` only. -/
theorem plot_dist_default_cols_witness :
    (pcAesStep { dt := ⟨⟨["chain", "draw", "school", "model"], true⟩⟩ }
      (processedDist { dt := ⟨⟨["chain", "draw", "school", "model"], true⟩⟩ })
      (resolveSampleDims { dt := ⟨⟨["chain", "draw", "school", "model"], true⟩⟩ } exRC)).1.cols =
      some ("__variable__" ::
        (processedDist { dt := ⟨⟨["chain", "draw", "school", "model"], true⟩⟩ }).dims.filter
          (fun d => !(d = "model" ||
            (resolveSampleDims { dt := ⟨⟨["chain", "draw", "school", "model"], true⟩⟩ } exRC).contains d))) :=
  ((plot_dist_default_cols
      { dt := ⟨⟨["chain", "draw", "school", "model"], true⟩⟩ } exRC
      (by decide) (by decide) (by decide) (by decide)).2
    (Option.getD ({ dt := ⟨⟨["chain", "draw", "school", "model"], true⟩⟩ : Args}).backend exRC.plot_backend)
    (pcAesStep { dt := ⟨⟨["chain", "draw", "school", "model"], true⟩⟩ }
      (processedDist { dt := ⟨⟨["chain", "draw", "school", "model"], true⟩⟩ })
      (resolveSampleDims { dt := ⟨⟨["chain", "draw", "school", "model"], true⟩⟩ } exRC)).1
    (by decide)).1

theorem filter_aes_ignore_congr (pc : PlotCollection)
    (aesMap : List (String × List String)) (art1 art2 : String)
    (sd : List String)
    (h : dlookup aesMap art1 = dlookup aesMap art2) :
    (filter_aes pc aesMap art1 sd).ignore = (filter_aes pc aesMap art2 sd).ignore := by
  unfold filter_aes
  rw [h]

theorem mainRun_map_mem_density_ok (a : Args) (rc : RCParams)
    (m : MapCall) (hm : Event.map m ∈ (mainRun a rc).events) :
    (densityStage (theCtx a rc)).err = none := by
  cases he : (densityStage (theCtx a rc)).err with
  | none => rfl
  | some e =>
    exfalso
    have hout := densityStage_err_out _ _ he
    have hmain : mainRun a rc =
        { events := baseEvents a rc ++ (densityStage (theCtx a rc)).events,
          mutLog := baseLog a rc ++ (densityStage (theCtx a rc)).log,
          resolved := some (theResolved a rc), ret := .err e } := by
      unfold mainRun
      rw [he]
    rw [hmain, hout] at hm
    simp at hm
    rcases pcStage_event_shape _ _ _ _ _ hm with ⟨_, heq⟩
    cases heq

theorem theAesMap_pet_inherits (a : Args) (rc : RCParams)
    (o : DictObj (List (String × List String)))
    (hmap : a.aes_map = some o)
    (hpe : (dlookup o.val "point_estimate").isSome = true)
    (hpet : dlookup o.val "point_estimate_text" = none)
    (hkind : resolveKind a rc ≠ "point_estimate_text") :
    dlookup (theAesMap a rc) "point_estimate_text" =
      dlookup (theAesMap a rc) "point_estimate" := by
  have hval : aesMapVal a = o.val := by
    unfold aesMapVal
    rw [hmap]
  have h1pe : (dlookup (aesMStep1 a (resolveKind a rc) (thePC a rc))
      "point_estimate").isSome = true := by
    unfold aesMStep1
    by_cases hk : resolveKind a rc = "point_estimate"
    · rw [hk, dlookup_dsetdefault_self]
      rfl
    · rw [dlookup_dsetdefault_ne _ _ _ _ (Ne.symm hk), hval]
      exact hpe
  have h1pet : dlookup (aesMStep1 a (resolveKind a rc) (thePC a rc))
      "point_estimate_text" = none := by
    unfold aesMStep1
    rw [dlookup_dsetdefault_ne _ _ _ _ (Ne.symm hkind), hval]
    exact hpet
  have h2pe : (dlookup (aesMStep2 a (processedDist a) (resolveKind a rc)
      (thePC a rc)) "point_estimate").isSome = true := by
    unfold aesMStep2
    split
    · rw [dlookup_dsetdefault_self]
      rfl
    · exact h1pe
  have h2pet : dlookup (aesMStep2 a (processedDist a) (resolveKind a rc)
      (thePC a rc)) "point_estimate_text" = none := by
    unfold aesMStep2
    split
    · rw [dlookup_dsetdefault_ne _ _ _ _ (by decide :
          ("point_estimate_text" : String) ≠ "point_estimate"),
        dlookup_dsetdefault_ne _ _ _ _ (by decide :
          ("point_estimate_text" : String) ≠ "credible_interval")]
      exact h1pet
    · exact h1pet
  rw [theAesMap_eq_step3]
  unfold aesMStep3
  rw [if_pos ⟨h2pe, by rw [h2pet]; rfl⟩]
  rw [dlookup_dset_self, dlookup_dset_ne _ _ _ _ (by decide :
    ("point_estimate" : String) ≠ "point_estimate_text")]
  obtain ⟨v, hv⟩ := Option.isSome_iff_exists.mp h2pe
  rw [hv]
  rfl

/-- C10: when the caller's `aes_map` has a "point_estimate" entry but no
"point_estimate_text" entry, the "point_estimate_text" artist is drawn
with exactly the same aesthetics as the "point_estimate" artist (the two
dispatches carry the same `ignore_aes` set, hence apply the same
aesthetics of the collection). -/
theorem plot_dist_pet_uses_pe_aes (a : Args) (rc : RCParams)
    (o : DictObj (List (String × List String)))
    (hmap : a.aes_map = some o)
    (hpe : (dlookup o.val "point_estimate").isSome = true)
    (hpet : dlookup o.val "point_estimate_text" = none) :
    ∀ m1 m2 : MapCall,
      Event.map m1 ∈ (plot_dist a rc).events →
      Event.map m2 ∈ (plot_dist a rc).events →
      m1.artist = "point_estimate" → m2.artist = "point_estimate_text" →
      m2.ignoreAes = m1.ignoreAes := by
  intro m1 m2 hm1 hm2 ha1 ha2
  have hv : ciKindOk a.ci_kind := by
    by_contra hbad
    rw [plot_dist, if_neg hbad] at hm1
    simp at hm1
  rw [plot_dist, if_pos hv] at hm1 hm2
  have hig2 : m2.ignoreAes = (filter_aes (theCtx a rc).pc (theCtx a rc).aesMap
        "point_estimate_text" (theCtx a rc).sample_dims).ignore ∧
      (theCtx a rc).pkGet "point_estimate_text" ≠ none := by
    rcases mainRun_event_mem a rc _ hm2 with hb | hd | hy | hc | hp | ht | hr
    · rcases pcStage_event_shape _ _ _ _ _ hb with ⟨_, heq⟩
      cases heq
    · rcases densityStage_event_shape _ _ hd with ⟨_, _, hcase⟩
      rcases hcase with ⟨_, heq⟩ | ⟨_, heq⟩ <;> injection heq with heq2 <;>
        subst heq2 <;> simp at ha2
    · rcases yOffsetStage_event_shape _ _ _ hy with ⟨d, heq⟩
      cases heq
    · rcases ciStage_event_shape _ _ hc with ⟨_, _, _, _, heq⟩
      injection heq with heq2
      subst heq2
      simp at ha2
    · rcases peStage_event_shape _ _ _ hp with ⟨p, hpp, mm, heq, hcase⟩
      injection heq with heq2
      subst heq2
      rcases hcase with ⟨hart, _⟩ | ⟨hart, hne, hig⟩
      · rw [hart] at ha2
        simp at ha2
      · exact ⟨hig, hne⟩
    · rcases titleStage_event_shape _ _ ht with ⟨mm, heq, hart⟩
      injection heq with heq2
      subst heq2
      rw [hart] at ha2
      simp at ha2
    · rcases removeAxisStage_event_shape _ _ hr with ⟨mm, heq, hart, _⟩
      injection heq with heq2
      subst heq2
      rw [hart] at ha2
      simp at ha2
  have hig1 : m1.ignoreAes = (filter_aes (theCtx a rc).pc (theCtx a rc).aesMap
      "point_estimate" (theCtx a rc).sample_dims).ignore := by
    rcases mainRun_event_mem a rc _ hm1 with hb | hd | hy | hc | hp | ht | hr
    · rcases pcStage_event_shape _ _ _ _ _ hb with ⟨_, heq⟩
      cases heq
    · rcases densityStage_event_shape _ _ hd with ⟨_, _, hcase⟩
      rcases hcase with ⟨_, heq⟩ | ⟨_, heq⟩ <;> injection heq with heq2 <;>
        subst heq2 <;> simp at ha1
    · rcases yOffsetStage_event_shape _ _ _ hy with ⟨d, heq⟩
      cases heq
    · rcases ciStage_event_shape _ _ hc with ⟨_, _, _, _, heq⟩
      injection heq with heq2
      subst heq2
      simp at ha1
    · rcases peStage_event_shape _ _ _ hp with ⟨p, hpp, mm, heq, hcase⟩
      injection heq with heq2
      subst heq2
      rcases hcase with ⟨hart, _, _, hig⟩ | ⟨hart, _⟩
      · exact hig
      · rw [hart] at ha1
        simp at ha1
    · rcases titleStage_event_shape _ _ ht with ⟨mm, heq, hart⟩
      injection heq with heq2
      subst heq2
      rw [hart] at ha1
      simp at ha1
    · rcases removeAxisStage_event_shape _ _ hr with ⟨mm, heq, hart, _⟩
      injection heq with heq2
      subst heq2
      rw [hart] at ha1
      simp at ha1
  have hdok := mainRun_map_mem_density_ok a rc m2 hm2
  have hkind : resolveKind a rc ≠ "point_estimate_text" := by
    intro hkp
    rcases densityStage_ok_cases _ hdok with hnone | hk | hk
    · have : (theCtx a rc).pkGet "point_estimate_text" = none := by
        have hck : (theCtx a rc).kind = resolveKind a rc := rfl
        rw [hck, hkp] at hnone
        exact hnone
      exact hig2.2 this
    · have hck : (theCtx a rc).kind = resolveKind a rc := rfl
      rw [hck, hkp] at hk
      simp at hk
    · have hck : (theCtx a rc).kind = resolveKind a rc := rfl
      rw [hck, hkp] at hk
      simp at hk
  have heqlook := theAesMap_pet_inherits a rc o hmap hpe hpet hkind
  rw [hig1, hig2.1]
  exact filter_aes_ignore_congr _ _ _ _ _ heqlook

/-- Concrete instantiation of C10: with `aes_map={"point_estimate":
["color"]}` both point-estimate dispatches carry the same (empty)
`ignore_aes`. -/
theorem plot_dist_pet_uses_pe_aes_witness :
    ({ visual := "point_estimate_text", artist := "point_estimate_text",
       data := some (.concatXY (.mean ["chain", "draw"] [])
         (.textYKde (.kde ["chain", "draw"] []))),
       ignoreAes := [],
       kwargs := [("horizontal_align", "center"), ("point_label", "x")],
       extra := [("point_estimate", "mean")] } : MapCall).ignoreAes =
    ({ visual := "scatter_x", artist := "point_estimate",
       data := some (.mean ["chain", "draw"] []), ignoreAes := [],
       kwargs := [] } : MapCall).ignoreAes :=
  plot_dist_pet_uses_pe_aes
    { dt := exDT, aes_map := some ⟨1, [("point_estimate", ["color"])]⟩ } exRC
    ⟨1, [("point_estimate", ["color"])]⟩ rfl (by decide) (by decide)
    { visual := "scatter_x", artist := "point_estimate",
      data := some (.mean ["chain", "draw"] []), ignoreAes := [], kwargs := [] }
    { visual := "point_estimate_text", artist := "point_estimate_text",
      data := some (.concatXY (.mean ["chain", "draw"] [])
        (.textYKde (.kde ["chain", "draw"] []))),
      ignoreAes := [],
      kwargs := [("horizontal_align", "center"), ("point_label", "x")],
      extra := [("point_estimate", "mean")] }
    (by decide) (by decide) rfl rfl

end ArvizPlots
